import Mathlib

/-!
# Arcane Engine: render queue and flush pipeline

A shallow embedding of `Renderer::submitOpaque`, `Renderer::submitTransparent`
and `Renderer::flush` (graphics/renderer/Renderer.cpp).  Calls into the graphics
API, into the shader objects and into the renderable are recorded, in program
order, in a command log; the two render queues are explicit state.
-/

namespace arcane

/-! ## Scalars: IEEE-754 binary32 (`float`, `GLfloat`) -/

/-- A binary32 value.  Every finite binary32 number is an integer multiple of
`2^-149`; `fin neg mag` is the number `(-1)^neg * mag * 2^-149`. -/
inductive F32 where
  | fin (neg : Bool) (mag : Nat)
  | inf (neg : Bool)
  | nan
  deriving DecidableEq, Repr

namespace F32

/-- Nearest integer to `p / d`, ties to even. -/
def rne (p d : Nat) : Nat :=
  let q := p / d
  let r := p % d
  if 2 * r > d ∨ (2 * r = d ∧ q % 2 = 1) then q + 1 else q

/-- Halving loop behind `ilog2`: the number of halvings that bring `n` below 2. -/
def ilog2Loop : Nat → Nat → Nat
  | 0, _ => 0
  | fuel + 1, n => if n < 2 then 0 else ilog2Loop fuel (n / 2) + 1

/-- Position of the highest set bit of `n` (0 for 0 and for 1). -/
def ilog2 (n : Nat) : Nat := ilog2Loop n n

/-- Round the magnitude `p / d` (in units of `2^-149`) to the nearest magnitude with a
24-bit significand, ties to even.  Below `2^24` units the spacing is one unit
(subnormals and the first binade); above it the spacing is `2^k` units. -/
def roundUnits (p d : Nat) : Nat :=
  let k := ilog2 (p / d) - 23
  rne p (d * 2 ^ k) * 2 ^ k

/-- The binary32 value nearest to `(-1)^neg * p / d` units; overflows to infinity. -/
def ofUnits (neg : Bool) (p d : Nat) : F32 :=
  let m := roundUnits p d
  if 2 ^ 128 * 2 ^ 149 ≤ m then inf neg else fin neg m

/-- The binary32 value of the decimal literal `num / den` (such as `0.025f` = `25 / 1000`). -/
def lit (num den : Nat) : F32 := ofUnits false (num * 2 ^ 149) den

/-- Binary32 addition, round to nearest even. -/
def add : F32 → F32 → F32
  | nan, _ => nan
  | _, nan => nan
  | inf a, inf b => if a = b then inf a else nan
  | inf a, fin _ _ => inf a
  | fin _ _, inf b => inf b
  | fin a m, fin b n =>
    if a = b then ofUnits a (m + n) 1
    else if m = n then fin false 0
    else if n < m then ofUnits a (m - n) 1
    else ofUnits b (n - m) 1

/-- The C++ test `x != 0`: false exactly for the two zeros, true for NaN. -/
def ne0 : F32 → Bool
  | fin _ 0 => false
  | _ => true

end F32

/-! ## glm vectors and matrices -/

/-- The type `glm::vec3`. -/
structure Vec3 where
  x : F32
  y : F32
  z : F32
  deriving DecidableEq, Repr

/-- Component-wise `glm::vec3 operator+`. -/
def Vec3.add (a b : Vec3) : Vec3 :=
  { x := F32.add a.x b.x, y := F32.add a.y b.y, z := F32.add a.z b.z }

/-- A `glm::mat4`, represented by the sequence of glm calls that built it:
`glm::mat4(1)`, `glm::translate(m, v)`, `glm::rotate(m, angle, axis)`,
`glm::scale(m, v)`.  glm is an external library; its arithmetic is not interpreted. -/
inductive Mat4 where
  | identity
  | translate (m : Mat4) (v : Vec3)
  | rotate (m : Mat4) (angle : F32) (axis : Vec3)
  | scale (m : Mat4) (v : Vec3)
  deriving DecidableEq, Repr

/-! ## Collaborators of the renderer -/

/-- Modelled from the spec: the class `Renderable3D` (its header is not part of the
sources).  The spec gives its capability contract: `getPosition() -> vec3`,
`getRotationAxis() -> vec3`, `getRadianRotation() -> float`, `getScale() -> vec3`,
`getShouldOutline() -> bool` and `draw(shaderHandle)`; the draw operation is
recorded in the command log. -/
structure Renderable3D where
  getPosition : Vec3
  getRotationAxis : Vec3
  getRadianRotation : F32
  getScale : Vec3
  getShouldOutline : Bool
  deriving DecidableEq, Repr

/-- The two `Shader &` parameters of `Renderer::flush`; a recorded call names the
parameter it was made on. -/
inductive ShaderArg where
  | shader
  | outlineShader
  deriving DecidableEq, Repr

/-- The OpenGL constants used by `Renderer::flush`. -/
inductive GLenum where
  | GL_DEPTH_TEST
  | GL_BLEND
  | GL_KEEP
  | GL_REPLACE
  | GL_ALWAYS
  | GL_NOTEQUAL
  | GL_SRC_ALPHA
  | GL_ONE_MINUS_SRC_ALPHA
  | GL_STENCIL_BUFFER_BIT
  deriving DecidableEq, Repr

/-- One recorded call: an OpenGL state call, a call on one of the two shaders
(`enable`, `disable`, `setUniformMat4`), or `current->draw(shader)`. -/
inductive GLCall where
  | glEnable (cap : GLenum)
  | glDisable (cap : GLenum)
  | glStencilOp (sfail dpfail dppass : GLenum)
  | glStencilFunc (func : GLenum) (ref : Int) (mask : Nat)
  | glStencilMask (mask : Nat)
  | glBlendFunc (sfactor dfactor : GLenum)
  | glClear (mask : GLenum)
  | setUniformMat4 (s : ShaderArg) (name : String) (value : Mat4)
  | enable (s : ShaderArg)
  | disable (s : ShaderArg)
  | draw (current : Renderable3D) (s : ShaderArg)
  deriving DecidableEq, Repr

/-! ## The renderer -/

/-- Modelled from the spec: the data members of `Renderer` (Renderer.h is not part of
the sources): two ordered FIFO queues of renderable handles, the front of a queue
being the head of the list. -/
structure Renderer where
  m_OpaqueRenderQueue : List Renderable3D
  m_TransparentRenderQueue : List Renderable3D
  deriving DecidableEq, Repr

namespace Renderer

/-- The constructor `Renderer::Renderer()`: both queues start empty. -/
def new : Renderer :=
  { m_OpaqueRenderQueue := [], m_TransparentRenderQueue := [] }

/-- The method `Renderer::submitOpaque`: `m_OpaqueRenderQueue.push_back(renderable)`. -/
def submitOpaque (self : Renderer) (renderable : Renderable3D) : Renderer × List GLCall :=
  ({ self with m_OpaqueRenderQueue := self.m_OpaqueRenderQueue ++ [renderable] }, [])

/-- The method `Renderer::submitTransparent`:
`m_TransparentRenderQueue.push_back(renderable)`. -/
def submitTransparent (self : Renderer) (renderable : Renderable3D) :
    Renderer × List GLCall :=
  ({ self with m_TransparentRenderQueue := self.m_TransparentRenderQueue ++ [renderable] }, [])

/-- The body of the first `while` loop of `Renderer::flush` (lines 20-58) for the
front element `current`: the calls it makes, in order. -/
def flushOpaqueItem (current : Renderable3D) : List GLCall :=
  let model := Mat4.identity
  let model := Mat4.translate model current.getPosition
  let model :=
    if (current.getRotationAxis.x.ne0 || current.getRotationAxis.y.ne0
          || current.getRotationAxis.z.ne0) && current.getRadianRotation.ne0 then
      Mat4.rotate model current.getRadianRotation current.getRotationAxis
    else model
  let model := Mat4.scale model current.getScale
  [ GLCall.glEnable GLenum.GL_DEPTH_TEST,
    GLCall.glStencilOp GLenum.GL_KEEP GLenum.GL_KEEP GLenum.GL_REPLACE,
    GLCall.glStencilFunc GLenum.GL_ALWAYS 1 0xFF,
    GLCall.glStencilMask 0xFF,
    GLCall.setUniformMat4 ShaderArg.shader "model" model,
    GLCall.draw current ShaderArg.shader ]
  ++
  (if current.getShouldOutline then
    let model := Mat4.identity
    let model := Mat4.translate model current.getPosition
    let model :=
      if (current.getRotationAxis.x.ne0 || current.getRotationAxis.y.ne0
            || current.getRotationAxis.z.ne0) && current.getRadianRotation.ne0 then
        Mat4.rotate model current.getRadianRotation current.getRotationAxis
      else model
    let model := Mat4.scale model
      (current.getScale.add ⟨F32.lit 25 1000, F32.lit 25 1000, F32.lit 25 1000⟩)
    [ GLCall.glStencilFunc GLenum.GL_NOTEQUAL 1 0xFF,
      GLCall.enable ShaderArg.outlineShader,
      GLCall.setUniformMat4 ShaderArg.outlineShader "model" model,
      GLCall.draw current ShaderArg.outlineShader,
      GLCall.disable ShaderArg.outlineShader,
      GLCall.glEnable GLenum.GL_DEPTH_TEST,
      GLCall.glStencilMask 0xFF,
      GLCall.enable ShaderArg.shader,
      GLCall.glClear GLenum.GL_STENCIL_BUFFER_BIT ]
  else [])

/-- The body of the second `while` loop of `Renderer::flush` (lines 65-109) for
the front element `current`: the calls it makes, in order. -/
def flushTransparentItem (current : Renderable3D) : List GLCall :=
  let model := Mat4.identity
  let model := Mat4.translate model current.getPosition
  let model :=
    if (current.getRotationAxis.x.ne0 || current.getRotationAxis.y.ne0
          || current.getRotationAxis.z.ne0) && current.getRadianRotation.ne0 then
      Mat4.rotate model current.getRadianRotation current.getRotationAxis
    else model
  let model := Mat4.scale model current.getScale
  [ GLCall.glEnable GLenum.GL_DEPTH_TEST,
    GLCall.glStencilOp GLenum.GL_KEEP GLenum.GL_KEEP GLenum.GL_REPLACE,
    GLCall.glStencilFunc GLenum.GL_ALWAYS 1 0xFF,
    GLCall.glStencilMask 0xFF,
    GLCall.glEnable GLenum.GL_BLEND,
    GLCall.glBlendFunc GLenum.GL_SRC_ALPHA GLenum.GL_ONE_MINUS_SRC_ALPHA,
    GLCall.setUniformMat4 ShaderArg.shader "model" model,
    GLCall.draw current ShaderArg.shader ]
  ++
  (if current.getShouldOutline then
    let model := Mat4.identity
    let model := Mat4.translate model current.getPosition
    let model :=
      if (current.getRotationAxis.x.ne0 || current.getRotationAxis.y.ne0
            || current.getRotationAxis.z.ne0) && current.getRadianRotation.ne0 then
        Mat4.rotate model current.getRadianRotation current.getRotationAxis
      else model
    let model := Mat4.scale model
      (current.getScale.add ⟨F32.lit 25 1000, F32.lit 25 1000, F32.lit 25 1000⟩)
    [ GLCall.glStencilFunc GLenum.GL_NOTEQUAL 1 0xFF,
      GLCall.enable ShaderArg.outlineShader,
      GLCall.setUniformMat4 ShaderArg.outlineShader "model" model,
      GLCall.draw current ShaderArg.outlineShader,
      GLCall.disable ShaderArg.outlineShader,
      GLCall.glEnable GLenum.GL_DEPTH_TEST,
      GLCall.glStencilMask 0xFF,
      GLCall.enable ShaderArg.shader,
      GLCall.glClear GLenum.GL_STENCIL_BUFFER_BIT ]
  else [])
  ++ [ GLCall.glDisable GLenum.GL_BLEND ]

/-- The first loop of `Renderer::flush`: `while (!m_OpaqueRenderQueue.empty())`, take
`front()`, run the body, `pop_front()`.  Returns the queue and the log at loop exit. -/
def flushOpaqueLoop : List Renderable3D → List GLCall → List Renderable3D × List GLCall
  | [], log => ([], log)
  | current :: rest, log => flushOpaqueLoop rest (log ++ flushOpaqueItem current)

/-- The second loop of `Renderer::flush`: `while (!m_TransparentRenderQueue.empty())`,
take `front()`, run the body, `pop_front()`. -/
def flushTransparentLoop :
    List Renderable3D → List GLCall → List Renderable3D × List GLCall
  | [], log => ([], log)
  | current :: rest, log => flushTransparentLoop rest (log ++ flushTransparentItem current)

/-- The method `Renderer::flush(shader, outlineShader)`: the opaque loop, then the
transparent loop.  Returns the renderer afterwards and the calls made. -/
def flush (self : Renderer) : Renderer × List GLCall :=
  let afterOpaque := flushOpaqueLoop self.m_OpaqueRenderQueue []
  let afterTransparent := flushTransparentLoop self.m_TransparentRenderQueue afterOpaque.2
  ({ m_OpaqueRenderQueue := afterOpaque.1, m_TransparentRenderQueue := afterTransparent.1 },
    afterTransparent.2)

end Renderer

/-! ## Observations on a command log -/

/-- The draw calls of a log, in order: which renderable, with which shader. -/
def drawCalls (log : List GLCall) : List (Renderable3D × ShaderArg) :=
  log.filterMap fun c =>
    match c with
    | GLCall.draw current s => some (current, s)
    | _ => none

/-- The main-pass draw calls of a log, in order: the renderables drawn with `shader`. -/
def mainDraws (log : List GLCall) : List Renderable3D :=
  log.filterMap fun c =>
    match c with
    | GLCall.draw current ShaderArg.shader => some current
    | _ => none

/-- The uniform uploads of a log, in order: shader, uniform name, matrix. -/
def uploads (log : List GLCall) : List (ShaderArg × String × Mat4) :=
  log.filterMap fun c =>
    match c with
    | GLCall.setUniformMat4 s name value => some (s, name, value)
    | _ => none

/-- A call that touches blending: `glEnable(GL_BLEND)`, `glDisable(GL_BLEND)`,
`glBlendFunc`. -/
def GLCall.isBlend : GLCall → Bool
  | GLCall.glEnable GLenum.GL_BLEND => true
  | GLCall.glDisable GLenum.GL_BLEND => true
  | GLCall.glBlendFunc _ _ => true
  | _ => false

/-! ## Frames: sequences of submissions -/

/-- One submission call made by the application during a frame. -/
inductive Submission where
  | submitOpaque (renderable : Renderable3D)
  | submitTransparent (renderable : Renderable3D)
  deriving DecidableEq, Repr

namespace Submission

/-- The renderables passed to `submitOpaque`, in call order. -/
def opaques (calls : List Submission) : List Renderable3D :=
  calls.filterMap fun c =>
    match c with
    | submitOpaque r => some r
    | submitTransparent _ => none

/-- The renderables passed to `submitTransparent`, in call order. -/
def transparents (calls : List Submission) : List Renderable3D :=
  calls.filterMap fun c =>
    match c with
    | submitOpaque _ => none
    | submitTransparent r => some r

end Submission

/-- Make the submission calls one after the other, in list order. -/
def Renderer.submitAll (self : Renderer) : List Submission → Renderer × List GLCall
  | [] => (self, [])
  | Submission.submitOpaque r :: rest =>
    let first := self.submitOpaque r
    let others := Renderer.submitAll first.1 rest
    (others.1, first.2 ++ others.2)
  | Submission.submitTransparent r :: rest =>
    let first := self.submitTransparent r
    let others := Renderer.submitAll first.1 rest
    (others.1, first.2 ++ others.2)

/-- The calls `flush` makes for one element `r` of the opaque queue, wherever it stands:
`seg` is the stretch of the log between the calls made for the elements queued before
`r` and the calls made for everything after it. -/
def IsOpaqueSegment (r : Renderable3D) (seg : List GLCall) : Prop :=
  ∀ before after transparent : List Renderable3D,
    (Renderer.flush ⟨before ++ r :: after, transparent⟩).2
      = (Renderer.flush ⟨before, []⟩).2 ++ seg ++ (Renderer.flush ⟨after, transparent⟩).2

/-- The calls `flush` makes for one element `r` of the transparent queue, wherever it
stands: `seg` is the stretch of the log between the calls made for the opaque queue and
the transparent elements before `r`, and the calls made for the elements after it. -/
def IsTransparentSegment (r : Renderable3D) (seg : List GLCall) : Prop :=
  ∀ opaques before after : List Renderable3D,
    (Renderer.flush ⟨opaques, before ++ r :: after⟩).2
      = (Renderer.flush ⟨opaques, before⟩).2 ++ seg ++ (Renderer.flush ⟨[], after⟩).2

/-- The number is zero, `+0` or `-0`: the values a float comparison with 0 finds equal. -/
def F32.IsZero (x : F32) : Prop := x = F32.fin false 0 ∨ x = F32.fin true 0

/-- The model transform in the words of the spec (4.2, step 2): identity, translate by
the position, rotate by the rotation angle around the rotation axis only if the angle
is non-zero and the axis is non-zero, then scale by `s`. -/
def specModel (r : Renderable3D) (s : Vec3) : Mat4 :=
  Mat4.scale
    (if r.getRadianRotation.ne0 = true ∧ (r.getRotationAxis.x.ne0 = true
          ∨ r.getRotationAxis.y.ne0 = true ∨ r.getRotationAxis.z.ne0 = true) then
      Mat4.rotate (Mat4.translate Mat4.identity r.getPosition) r.getRadianRotation
        r.getRotationAxis
    else Mat4.translate Mat4.identity r.getPosition) s

/-- The outline margin `glm::vec3(0.025f, 0.025f, 0.025f)`. -/
def outlineMargin : Vec3 := ⟨F32.lit 25 1000, F32.lit 25 1000, F32.lit 25 1000⟩

/-! ## The OpenGL context -/

/-- The part of the OpenGL context that the calls of `flush` set: capabilities, stencil
and blend configuration, and the program in use. -/
structure GpuState where
  depthTest : Bool
  blend : Bool
  stencilOp : GLenum × GLenum × GLenum
  stencilFunc : GLenum × Int × Nat
  stencilMask : Nat
  blendFunc : GLenum × GLenum
  program : Option ShaderArg
  deriving DecidableEq, Repr

namespace GpuState

/-- Modelled from the spec: the effect of the `Shader` methods on the context (the
class `Shader` is not part of the sources): `enable` makes the shader the program in
use, `disable` leaves no program in use, a uniform upload leaves the context as it is.
The OpenGL calls have their OpenGL meaning; draws and buffer clears leave the tracked
state as it is. -/
def apply (st : GpuState) : GLCall → GpuState
  | GLCall.glEnable cap =>
    match cap with
    | GLenum.GL_DEPTH_TEST => { st with depthTest := true }
    | GLenum.GL_BLEND => { st with blend := true }
    | _ => st
  | GLCall.glDisable cap =>
    match cap with
    | GLenum.GL_DEPTH_TEST => { st with depthTest := false }
    | GLenum.GL_BLEND => { st with blend := false }
    | _ => st
  | GLCall.glStencilOp sfail dpfail dppass => { st with stencilOp := (sfail, dpfail, dppass) }
  | GLCall.glStencilFunc func ref mask => { st with stencilFunc := (func, ref, mask) }
  | GLCall.glStencilMask mask => { st with stencilMask := mask }
  | GLCall.glBlendFunc sfactor dfactor => { st with blendFunc := (sfactor, dfactor) }
  | GLCall.glClear _ => st
  | GLCall.setUniformMat4 _ _ _ => st
  | GLCall.enable s => { st with program := some s }
  | GLCall.disable _ => { st with program := none }
  | GLCall.draw _ _ => st

/-- The context after a sequence of calls. -/
def run (st : GpuState) (log : List GLCall) : GpuState :=
  log.foldl apply st

/-- The draw calls of a log, each with the context it is issued in. -/
def drawStates : GpuState → List GLCall → List (Renderable3D × ShaderArg × GpuState)
  | _, [] => []
  | st, c :: rest =>
    (match c with
      | GLCall.draw current s => [(current, s, st)]
      | _ => [])
    ++ drawStates (st.apply c) rest

/-- The context the claims ask for at a draw call: for a main-pass draw, depth test on,
stencil op (keep, keep, replace), stencil function (always, 1, 0xFF), stencil write mask
0xFF; for an outline draw, stencil function (not equal, 1, 0xFF). -/
def DrawReady (s : ShaderArg) (st : GpuState) : Prop :=
  (s = ShaderArg.shader →
      st.depthTest = true
      ∧ st.stencilOp = (GLenum.GL_KEEP, GLenum.GL_KEEP, GLenum.GL_REPLACE)
      ∧ st.stencilFunc = (GLenum.GL_ALWAYS, 1, 0xFF)
      ∧ st.stencilMask = 0xFF)
  ∧ (s = ShaderArg.outlineShader → st.stencilFunc = (GLenum.GL_NOTEQUAL, 1, 0xFF))

/-- A context with everything switched off, as a starting point for samples. -/
def allOff : GpuState :=
  { depthTest := false
    blend := false
    stencilOp := (GLenum.GL_KEEP, GLenum.GL_KEEP, GLenum.GL_KEEP)
    stencilFunc := (GLenum.GL_NOTEQUAL, 0, 0)
    stencilMask := 0
    blendFunc := (GLenum.GL_SRC_ALPHA, GLenum.GL_SRC_ALPHA)
    program := none }

end GpuState

/-! ## Sample renderables -/

/-- A renderable at the origin with unit scale, no rotation and no outline. -/
def plainCube : Renderable3D :=
  { getPosition := ⟨F32.lit 0 1, F32.lit 0 1, F32.lit 0 1⟩
    getRotationAxis := ⟨F32.lit 0 1, F32.lit 1 1, F32.lit 0 1⟩
    getRadianRotation := F32.lit 0 1
    getScale := ⟨F32.lit 1 1, F32.lit 1 1, F32.lit 1 1⟩
    getShouldOutline := false }

/-- A renderable with unit scale, turned by 0.5 rad around the y axis, to be outlined. -/
def outlinedCube : Renderable3D :=
  { getPosition := ⟨F32.lit 2 1, F32.lit 0 1, F32.lit 3 1⟩
    getRotationAxis := ⟨F32.lit 0 1, F32.lit 1 1, F32.lit 0 1⟩
    getRadianRotation := F32.lit 5 10
    getScale := ⟨F32.lit 1 1, F32.lit 1 1, F32.lit 1 1⟩
    getShouldOutline := true }

/-! ## The loops of `flush`, one iteration at a time -/

/-- The state of a `while` loop of `flush`: its queue, the calls made so far, and the
number of iterations completed. -/
structure LoopState where
  queue : List Renderable3D
  log : List GLCall
  iterations : Nat
  deriving DecidableEq, Repr

/-- One pass through the first loop of `Renderer::flush`: `none` when the condition
`!m_OpaqueRenderQueue.empty()` is false; otherwise the body is run on `front()` and
`pop_front()` removes it. -/
def Renderer.opaqueIteration : LoopState → Option LoopState
  | ⟨[], _, _⟩ => none
  | ⟨current :: rest, log, n⟩ => some ⟨rest, log ++ Renderer.flushOpaqueItem current, n + 1⟩

/-- One pass through the second loop of `Renderer::flush`: `none` when the condition
`!m_TransparentRenderQueue.empty()` is false; otherwise the body is run on `front()` and
`pop_front()` removes it. -/
def Renderer.transparentIteration : LoopState → Option LoopState
  | ⟨[], _, _⟩ => none
  | ⟨current :: rest, log, n⟩ =>
    some ⟨rest, log ++ Renderer.flushTransparentItem current, n + 1⟩

/-- Run a `while` loop for at most `fuel` tests of its condition: the state at loop exit
when the loop ends within that budget, `none` when the budget runs out first. -/
def runWhile (iteration : LoopState → Option LoopState) : Nat → LoopState → Option LoopState
  | 0, _ => none
  | fuel + 1, st =>
    match iteration st with
    | none => some st
    | some next => runWhile iteration fuel next

/-- The method `Renderer::flush` run one iteration at a time with a budget of `fuel`
condition tests per loop: the renderer and log at return, and the number of iterations
of the first and of the second loop. -/
def Renderer.flushStepwise (fuel : Nat) (self : Renderer) :
    Option (Renderer × List GLCall × Nat × Nat) :=
  match runWhile Renderer.opaqueIteration fuel ⟨self.m_OpaqueRenderQueue, [], 0⟩ with
  | none => none
  | some afterOpaque =>
    match runWhile Renderer.transparentIteration fuel
        ⟨self.m_TransparentRenderQueue, afterOpaque.log, 0⟩ with
    | none => none
    | some afterTransparent =>
      some ({ m_OpaqueRenderQueue := afterOpaque.queue,
              m_TransparentRenderQueue := afterTransparent.queue },
            afterTransparent.log, afterOpaque.iterations, afterTransparent.iterations)

/-! ## Counting, and frames made of several flushes -/

/-- The number of `glClear(GL_STENCIL_BUFFER_BIT)` calls in a log. -/
def stencilClears (log : List GLCall) : Nat :=
  log.count (GLCall.glClear GLenum.GL_STENCIL_BUFFER_BIT)

/-- The number of queued renderables whose outline flag is set. -/
def outlinedCount (queue : List Renderable3D) : Nat :=
  queue.countP fun r => r.getShouldOutline

/-- The calls made by: submit `first`, `flush`, submit `second`, `flush`. -/
def Renderer.twoFlushes (self : Renderer) (first second : List Submission) : List GLCall :=
  let submitted1 := self.submitAll first
  let flushed1 := submitted1.1.flush
  let submitted2 := flushed1.1.submitAll second
  let flushed2 := submitted2.1.flush
  submitted1.2 ++ flushed1.2 ++ submitted2.2 ++ flushed2.2

/-- The calls made by: submit `first`, submit `second`, `flush`. -/
def Renderer.oneFlush (self : Renderer) (first second : List Submission) : List GLCall :=
  let submitted := self.submitAll (first ++ second)
  submitted.2 ++ submitted.1.flush.2

/-! ## The camera (graphics/camera/Camera.h) -/

namespace F32

/-- Binary32 negation: the sign is flipped. -/
def neg : F32 → F32
  | fin s m => fin (!s) m
  | inf s => inf (!s)
  | nan => nan

/-- Binary32 subtraction, round to nearest even. -/
def sub (a b : F32) : F32 := add a (neg b)

/-- Binary32 multiplication, round to nearest even.  The product of two magnitudes in
units of `2^-149` is `m * n / 2^149` units. -/
def mul : F32 → F32 → F32
  | nan, _ => nan
  | _, nan => nan
  | inf a, inf b => inf (a != b)
  | inf a, fin b n => if n = 0 then nan else inf (a != b)
  | fin a m, inf b => if m = 0 then nan else inf (a != b)
  | fin a m, fin b n => ofUnits (a != b) (m * n) (2 ^ 149)

/-- The place of a number in the order of the floats, in units of `2^-149`; a NaN has
none.  The two zeros have the same place. -/
def key : F32 → Option Int
  | fin false m => some (m : Int)
  | fin true m => some (-(m : Int))
  | inf false => some (2 ^ 128 * 2 ^ 149)
  | inf true => some (-(2 ^ 128 * 2 ^ 149))
  | nan => none

/-- The C++ comparison `a < b`: false when either side is a NaN. -/
def lt (a b : F32) : Bool :=
  match key a, key b with
  | some x, some y => decide (x < y)
  | _, _ => false

/-- The C++ comparison `a <= b`: false when either side is a NaN. -/
def le (a b : F32) : Bool :=
  match key a, key b with
  | some x, some y => decide (x ≤ y)
  | _, _ => false

/-- Modelled from the spec: "clamp to [lo, hi]" (the camera source file is not part of
the sources), done by comparisons as C++ clamps are: below `lo` gives `lo`, above `hi`
gives `hi`, anything else, a NaN included, is kept. -/
def clamp (x lo hi : F32) : F32 :=
  if lt x lo then lo else if lt hi x then hi else x

/-- The value is a finite number: neither an infinity nor a NaN. -/
def isFinite : F32 → Bool
  | fin _ _ => true
  | _ => false

end F32

/-- The constant `YAW = -90.0f` of Camera.h. -/
def YAW : F32 := F32.neg (F32.lit 90 1)

/-- The constant `PITCH = 0.0f` of Camera.h. -/
def PITCH : F32 := F32.lit 0 1

/-- The constant `SPEED = 40.0f` of Camera.h. -/
def SPEED : F32 := F32.lit 40 1

/-- The constant `SENSITIVITY = 0.10f` of Camera.h. -/
def SENSITIVITY : F32 := F32.lit 10 100

/-- The constant `FOV = 100.0f` of Camera.h, the largest field of view. -/
def FOV : F32 := F32.lit 100 1

/-- The data members of the class `Camera` (Camera.h). -/
structure Camera where
  m_Position : Vec3
  m_Front : Vec3
  m_Up : Vec3
  m_Right : Vec3
  m_WorldUp : Vec3
  m_Yaw : F32
  m_Pitch : F32
  m_MovementSpeed : F32
  m_MouseSensitivity : F32
  m_FOV : F32
  deriving DecidableEq, Repr

namespace Camera

/-- Modelled from the spec: `Camera::updateCameraVectors` (Camera.cpp is not part of the
sources) recomputes front, right and up from yaw, pitch and world-up and changes
nothing else.  The trigonometry is not interpreted: `orient yaw pitch worldUp` stands
for the triple (front, right, up) it computes. -/
def updateCameraVectors (orient : F32 → F32 → Vec3 → Vec3 × Vec3 × Vec3) (self : Camera) :
    Camera :=
  let axes := orient self.m_Yaw self.m_Pitch self.m_WorldUp
  { self with m_Front := axes.1, m_Right := axes.2.1, m_Up := axes.2.2 }

/-- Modelled from the spec: `Camera::processMouseMovement` (Camera.cpp is not part of the
sources): "yaw += xOffset × sensitivity; pitch += yOffset × sensitivity. If
constrainPitch, clamp pitch to [-89°, 89°]. Triggers recomputation of front/right/up." -/
def processMouseMovement (orient : F32 → F32 → Vec3 → Vec3 × Vec3 × Vec3) (self : Camera)
    (xOffset yOffset : F32) (constrainPitch : Bool) : Camera :=
  let yaw := F32.add self.m_Yaw (F32.mul xOffset self.m_MouseSensitivity)
  let pitch := F32.add self.m_Pitch (F32.mul yOffset self.m_MouseSensitivity)
  let pitch :=
    if constrainPitch then F32.clamp pitch (F32.neg (F32.lit 89 1)) (F32.lit 89 1) else pitch
  updateCameraVectors orient { self with m_Yaw := yaw, m_Pitch := pitch }

/-- Modelled from the spec: `Camera::processMouseScroll` (Camera.cpp is not part of the
sources): "field-of-view -= yOffset; clamp to [1°, FOV-max]. Side effect: mutates
field-of-view only." -/
def processMouseScroll (self : Camera) (yOffset : F32) : Camera :=
  let fov := F32.sub self.m_FOV yOffset
  { self with m_FOV := F32.clamp fov (F32.lit 1 1) FOV }

/-- A camera at the origin with the default values of Camera.h. -/
def atOrigin : Camera :=
  { m_Position := ⟨F32.lit 0 1, F32.lit 0 1, F32.lit 0 1⟩
    m_Front := ⟨F32.lit 0 1, F32.lit 0 1, F32.neg (F32.lit 1 1)⟩
    m_Up := ⟨F32.lit 0 1, F32.lit 1 1, F32.lit 0 1⟩
    m_Right := ⟨F32.lit 1 1, F32.lit 0 1, F32.lit 0 1⟩
    m_WorldUp := ⟨F32.lit 0 1, F32.lit 1 1, F32.lit 0 1⟩
    m_Yaw := YAW
    m_Pitch := PITCH
    m_MovementSpeed := SPEED
    m_MouseSensitivity := SENSITIVITY
    m_FOV := FOV }

/-- A stand-in for the orientation computation, for samples: the axes looking down -z. -/
def fixedAxes (_yaw _pitch : F32) (worldUp : Vec3) : Vec3 × Vec3 × Vec3 :=
  (⟨F32.lit 0 1, F32.lit 0 1, F32.neg (F32.lit 1 1)⟩,
   ⟨F32.lit 1 1, F32.lit 0 1, F32.lit 0 1⟩, worldUp)

end Camera

/-! ## Basic facts about the two loops -/

theorem flushOpaqueLoop_eq (queue : List Renderable3D) (log : List GLCall) :
    Renderer.flushOpaqueLoop queue log
      = ([], log ++ queue.flatMap Renderer.flushOpaqueItem) := by
  induction queue generalizing log with
  | nil => simp [Renderer.flushOpaqueLoop]
  | cons current rest ih => simp [Renderer.flushOpaqueLoop, ih, List.append_assoc]

theorem flushTransparentLoop_eq (queue : List Renderable3D) (log : List GLCall) :
    Renderer.flushTransparentLoop queue log
      = ([], log ++ queue.flatMap Renderer.flushTransparentItem) := by
  induction queue generalizing log with
  | nil => simp [Renderer.flushTransparentLoop]
  | cons current rest ih => simp [Renderer.flushTransparentLoop, ih, List.append_assoc]

theorem flush_log (self : Renderer) :
    self.flush.2 = self.m_OpaqueRenderQueue.flatMap Renderer.flushOpaqueItem
      ++ self.m_TransparentRenderQueue.flatMap Renderer.flushTransparentItem := by
  simp [Renderer.flush, flushOpaqueLoop_eq, flushTransparentLoop_eq]

theorem flush_state (self : Renderer) : self.flush.1 = Renderer.new := by
  simp [Renderer.flush, flushOpaqueLoop_eq, flushTransparentLoop_eq, Renderer.new]

theorem isOpaqueSegment_item (r : Renderable3D) :
    IsOpaqueSegment r (Renderer.flushOpaqueItem r) := by
  intro before after transparent
  simp [flush_log, List.append_assoc]

theorem isTransparentSegment_item (r : Renderable3D) :
    IsTransparentSegment r (Renderer.flushTransparentItem r) := by
  intro opaques before after
  simp [flush_log, List.append_assoc]

theorem submitAll_state (self : Renderer) (calls : List Submission) :
    (self.submitAll calls).1
      = ⟨self.m_OpaqueRenderQueue ++ Submission.opaques calls,
         self.m_TransparentRenderQueue ++ Submission.transparents calls⟩ := by
  induction calls generalizing self with
  | nil => simp [Renderer.submitAll, Submission.opaques, Submission.transparents]
  | cons c rest ih =>
    cases c <;>
      simp [Renderer.submitAll, ih, Renderer.submitOpaque, Renderer.submitTransparent,
        Submission.opaques, Submission.transparents]

theorem mainDraws_append (a b : List GLCall) :
    mainDraws (a ++ b) = mainDraws a ++ mainDraws b := by
  simp [mainDraws]

theorem mainDraws_flushOpaqueItem (r : Renderable3D) :
    mainDraws (Renderer.flushOpaqueItem r) = [r] := by
  cases h : r.getShouldOutline <;> simp [mainDraws, Renderer.flushOpaqueItem, h]

theorem mainDraws_flushTransparentItem (r : Renderable3D) :
    mainDraws (Renderer.flushTransparentItem r) = [r] := by
  cases h : r.getShouldOutline <;> simp [mainDraws, Renderer.flushTransparentItem, h]

theorem mainDraws_opaque_queue (queue : List Renderable3D) :
    mainDraws (queue.flatMap Renderer.flushOpaqueItem) = queue := by
  induction queue with
  | nil => simp [mainDraws]
  | cons r rest ih => simp [List.flatMap_cons, mainDraws_append, mainDraws_flushOpaqueItem, ih]

theorem mainDraws_transparent_queue (queue : List Renderable3D) :
    mainDraws (queue.flatMap Renderer.flushTransparentItem) = queue := by
  induction queue with
  | nil => simp [mainDraws]
  | cons r rest ih =>
    simp [List.flatMap_cons, mainDraws_append, mainDraws_flushTransparentItem, ih]

/-! ## Queue discipline -/

/-- C1. After any interleaving of `submitOpaque` / `submitTransparent` calls on a fresh
renderer, the log of `flush` splits into the calls for the opaque submissions followed
by the calls for the transparent submissions; the main-pass draws of the first part are
the opaque submissions in call order, those of the second part the transparent
submissions in call order, so the main-pass draws of the whole log are the opaque
submissions followed by the transparent ones. -/
theorem flush_draws_in_submission_order (calls : List Submission) :
    ∃ opaquePart transparentPart : List GLCall,
      ((Renderer.new.submitAll calls).1.flush).2 = opaquePart ++ transparentPart
      ∧ opaquePart = (Renderer.flush ⟨Submission.opaques calls, []⟩).2
      ∧ transparentPart = (Renderer.flush ⟨[], Submission.transparents calls⟩).2
      ∧ mainDraws opaquePart = Submission.opaques calls
      ∧ mainDraws transparentPart = Submission.transparents calls
      ∧ mainDraws ((Renderer.new.submitAll calls).1.flush).2
          = Submission.opaques calls ++ Submission.transparents calls := by
  refine ⟨_, _, ?_, rfl, rfl, ?_, ?_, ?_⟩
  · simp [flush_log, submitAll_state, Renderer.new]
  · simp [flush_log, mainDraws_opaque_queue]
  · simp [flush_log, mainDraws_transparent_queue]
  · simp [flush_log, submitAll_state, Renderer.new, mainDraws_append,
      mainDraws_opaque_queue, mainDraws_transparent_queue]

/-- C2. After `flush` both queues are empty, whatever they held before (also when both
were already empty). -/
theorem flush_empties_both_queues (self : Renderer) :
    self.flush.1.m_OpaqueRenderQueue = [] ∧ self.flush.1.m_TransparentRenderQueue = [] := by
  simp [flush_state, Renderer.new]

/-- C3. A second `flush` directly after a first one makes no call at all, so no draw
call, and leaves both queues empty. -/
theorem flush_twice_second_is_silent (self : Renderer) :
    self.flush.1.flush.2 = []
      ∧ drawCalls self.flush.1.flush.2 = []
      ∧ self.flush.1.flush.1.m_OpaqueRenderQueue = []
      ∧ self.flush.1.flush.1.m_TransparentRenderQueue = [] := by
  simp [flush_state, flush_log, Renderer.new, drawCalls]

/-- C7. `submitOpaque` appends the renderable at the tail of the opaque queue, leaves the
transparent queue alone and makes no graphics call; `submitTransparent` does the same
with the roles of the queues exchanged.  Nothing is rejected: the queue holds one more
occurrence of the renderable than before, also when it was queued already. -/
theorem submit_appends_at_tail (self : Renderer) (r : Renderable3D) :
    self.submitOpaque r
        = (⟨self.m_OpaqueRenderQueue ++ [r], self.m_TransparentRenderQueue⟩, [])
      ∧ self.submitTransparent r
        = (⟨self.m_OpaqueRenderQueue, self.m_TransparentRenderQueue ++ [r]⟩, [])
      ∧ (self.submitOpaque r).1.m_OpaqueRenderQueue.count r
        = self.m_OpaqueRenderQueue.count r + 1
      ∧ (self.submitTransparent r).1.m_TransparentRenderQueue.count r
        = self.m_TransparentRenderQueue.count r + 1 := by
  simp [Renderer.submitOpaque, Renderer.submitTransparent]

/-! ## The calls made for one queued element -/

theorem IsOpaqueSegment.eq_opaque_item {r : Renderable3D} {seg : List GLCall}
    (h : IsOpaqueSegment r seg) : seg = Renderer.flushOpaqueItem r := by
  have h0 := h [] [] []
  simp [flush_log] at h0
  exact h0.symm

theorem IsTransparentSegment.eq_transparent_item {r : Renderable3D} {seg : List GLCall}
    (h : IsTransparentSegment r seg) : seg = Renderer.flushTransparentItem r := by
  have h0 := h [] [] []
  simp [flush_log] at h0
  exact h0.symm

theorem uploads_flushOpaqueItem (r : Renderable3D) :
    uploads (Renderer.flushOpaqueItem r)
      = (ShaderArg.shader, "model", specModel r r.getScale)
        :: (if r.getShouldOutline = true then
              [(ShaderArg.outlineShader, "model", specModel r (r.getScale.add outlineMargin))]
            else []) := by
  cases ho : r.getShouldOutline <;> cases hx : r.getRotationAxis.x.ne0 <;>
    cases hy : r.getRotationAxis.y.ne0 <;> cases hz : r.getRotationAxis.z.ne0 <;>
    cases ha : r.getRadianRotation.ne0 <;>
    simp [uploads, Renderer.flushOpaqueItem, specModel, outlineMargin, ho, hx, hy, hz, ha]

theorem uploads_flushTransparentItem (r : Renderable3D) :
    uploads (Renderer.flushTransparentItem r)
      = (ShaderArg.shader, "model", specModel r r.getScale)
        :: (if r.getShouldOutline = true then
              [(ShaderArg.outlineShader, "model", specModel r (r.getScale.add outlineMargin))]
            else []) := by
  cases ho : r.getShouldOutline <;> cases hx : r.getRotationAxis.x.ne0 <;>
    cases hy : r.getRotationAxis.y.ne0 <;> cases hz : r.getRotationAxis.z.ne0 <;>
    cases ha : r.getRadianRotation.ne0 <;>
    simp [uploads, Renderer.flushTransparentItem, specModel, outlineMargin, ho, hx, hy, hz, ha]

theorem drawCalls_flushOpaqueItem (r : Renderable3D) :
    drawCalls (Renderer.flushOpaqueItem r)
      = (r, ShaderArg.shader)
        :: (if r.getShouldOutline = true then [(r, ShaderArg.outlineShader)] else []) := by
  cases ho : r.getShouldOutline <;> simp [drawCalls, Renderer.flushOpaqueItem, ho]

theorem drawCalls_flushTransparentItem (r : Renderable3D) :
    drawCalls (Renderer.flushTransparentItem r)
      = (r, ShaderArg.shader)
        :: (if r.getShouldOutline = true then [(r, ShaderArg.outlineShader)] else []) := by
  cases ho : r.getShouldOutline <;> simp [drawCalls, Renderer.flushTransparentItem, ho]

theorem F32.ne0_eq_false_iff (x : F32) : x.ne0 = false ↔ x.IsZero := by
  unfold F32.IsZero
  cases x with
  | fin neg mag =>
    cases mag with
    | zero => cases neg <;> simp [F32.ne0]
    | succ n => simp [F32.ne0]
  | inf neg => simp [F32.ne0]
  | nan => simp [F32.ne0]

theorem F32.ne0_eq_true_iff (x : F32) : x.ne0 = true ↔ ¬ x.IsZero := by
  rw [← F32.ne0_eq_false_iff]
  cases x.ne0 <;> simp

/-- The sum `1.0f + 0.025f` is the binary32 number written `1.025f`. -/
theorem F32.one_add_margin : F32.add (F32.lit 1 1) (F32.lit 25 1000) = F32.lit 1025 1000 := by
  set_option maxRecDepth 100000 in decide

theorem specModel_of_zero (r : Renderable3D) (s : Vec3)
    (h : r.getRadianRotation.IsZero ∨ (r.getRotationAxis.x.IsZero
      ∧ r.getRotationAxis.y.IsZero ∧ r.getRotationAxis.z.IsZero)) :
    specModel r s = Mat4.scale (Mat4.translate Mat4.identity r.getPosition) s := by
  simp only [← F32.ne0_eq_false_iff] at h
  unfold specModel
  rw [if_neg]
  rcases h with h | ⟨hx, hy, hz⟩
  · simp [h]
  · simp [hx, hy, hz]

theorem specModel_of_nonzero (r : Renderable3D) (s : Vec3)
    (ha : ¬ r.getRadianRotation.IsZero)
    (hax : ¬ r.getRotationAxis.x.IsZero ∨ ¬ r.getRotationAxis.y.IsZero
      ∨ ¬ r.getRotationAxis.z.IsZero) :
    specModel r s
      = Mat4.scale (Mat4.rotate (Mat4.translate Mat4.identity r.getPosition)
          r.getRadianRotation r.getRotationAxis) s := by
  simp only [← F32.ne0_eq_true_iff] at ha hax
  unfold specModel
  rw [if_pos ⟨ha, hax⟩]

theorem isOpaqueSegment_flush_single (r : Renderable3D) :
    IsOpaqueSegment r (Renderer.flush ⟨[r], []⟩).2 := by
  simpa [flush_log] using isOpaqueSegment_item r

theorem isTransparentSegment_flush_single (r : Renderable3D) :
    IsTransparentSegment r (Renderer.flush ⟨[], [r]⟩).2 := by
  simpa [flush_log] using isTransparentSegment_item r

/-- C4. For a queued renderable whose outline flag is false, in either queue and at any
position, the calls `flush` makes for it hold exactly one draw call, made with the
main shader, no `enable` and no `disable` of the outline shader, and no uniform upload
to the outline shader. -/
theorem no_outline_one_draw (r : Renderable3D) (seg : List GLCall)
    (hflag : r.getShouldOutline = false)
    (hseg : IsOpaqueSegment r seg ∨ IsTransparentSegment r seg) :
    drawCalls seg = [(r, ShaderArg.shader)]
      ∧ GLCall.enable ShaderArg.outlineShader ∉ seg
      ∧ GLCall.disable ShaderArg.outlineShader ∉ seg
      ∧ ∀ name value, GLCall.setUniformMat4 ShaderArg.outlineShader name value ∉ seg := by
  rcases hseg with h | h
  · rw [h.eq_opaque_item]
    simp [drawCalls, Renderer.flushOpaqueItem, hflag]
  · rw [h.eq_transparent_item]
    simp [drawCalls, Renderer.flushTransparentItem, hflag]

/-- C4 at a sample: `plainCube` alone in the opaque queue. -/
theorem no_outline_one_draw_witness :
    plainCube.getShouldOutline = false
      ∧ IsOpaqueSegment plainCube (Renderer.flush ⟨[plainCube], []⟩).2
      ∧ drawCalls (Renderer.flush ⟨[plainCube], []⟩).2 = [(plainCube, ShaderArg.shader)]
      ∧ GLCall.enable ShaderArg.outlineShader ∉ (Renderer.flush ⟨[plainCube], []⟩).2
      ∧ GLCall.disable ShaderArg.outlineShader ∉ (Renderer.flush ⟨[plainCube], []⟩).2
      ∧ ∀ name value, GLCall.setUniformMat4 ShaderArg.outlineShader name value
          ∉ (Renderer.flush ⟨[plainCube], []⟩).2 :=
  ⟨rfl, isOpaqueSegment_flush_single plainCube,
    no_outline_one_draw plainCube _ rfl (Or.inl (isOpaqueSegment_flush_single plainCube))⟩

/-- C5. For a queued renderable whose outline flag is true, in either queue and at any
position, `flush` makes exactly two draw calls for it, the second with the outline
shader.  The matrix uploaded to the outline shader is built as the main-pass matrix is,
on the same translation and the same guarded rotation, but scaled by the renderable's
scale plus `0.025f` on each axis; for the scale (1, 1, 1) that is `1.025f` on each
axis. -/
theorem outline_second_draw_inflated (r : Renderable3D) (seg : List GLCall)
    (hflag : r.getShouldOutline = true)
    (hseg : IsOpaqueSegment r seg ∨ IsTransparentSegment r seg) :
    drawCalls seg = [(r, ShaderArg.shader), (r, ShaderArg.outlineShader)]
      ∧ ∃ placed : Mat4,
          (placed = Mat4.translate Mat4.identity r.getPosition
            ∨ placed = Mat4.rotate (Mat4.translate Mat4.identity r.getPosition)
                r.getRadianRotation r.getRotationAxis)
          ∧ uploads seg
              = [(ShaderArg.shader, "model", Mat4.scale placed r.getScale),
                 (ShaderArg.outlineShader, "model",
                   Mat4.scale placed
                     ⟨F32.add r.getScale.x (F32.lit 25 1000),
                      F32.add r.getScale.y (F32.lit 25 1000),
                      F32.add r.getScale.z (F32.lit 25 1000)⟩)]
          ∧ (r.getScale = ⟨F32.lit 1 1, F32.lit 1 1, F32.lit 1 1⟩ →
              uploads seg
                = [(ShaderArg.shader, "model",
                     Mat4.scale placed ⟨F32.lit 1 1, F32.lit 1 1, F32.lit 1 1⟩),
                   (ShaderArg.outlineShader, "model",
                     Mat4.scale placed
                       ⟨F32.lit 1025 1000, F32.lit 1025 1000, F32.lit 1025 1000⟩)]) := by
  have hd : drawCalls seg = [(r, ShaderArg.shader), (r, ShaderArg.outlineShader)] := by
    rcases hseg with h | h
    · rw [h.eq_opaque_item, drawCalls_flushOpaqueItem]; simp [hflag]
    · rw [h.eq_transparent_item, drawCalls_flushTransparentItem]; simp [hflag]
  have hu : uploads seg
      = [(ShaderArg.shader, "model", specModel r r.getScale),
         (ShaderArg.outlineShader, "model", specModel r (r.getScale.add outlineMargin))] := by
    rcases hseg with h | h
    · rw [h.eq_opaque_item, uploads_flushOpaqueItem]; simp [hflag]
    · rw [h.eq_transparent_item, uploads_flushTransparentItem]; simp [hflag]
  refine ⟨hd, ?_⟩
  by_cases hg : r.getRadianRotation.ne0 = true ∧ (r.getRotationAxis.x.ne0 = true
      ∨ r.getRotationAxis.y.ne0 = true ∨ r.getRotationAxis.z.ne0 = true)
  · refine ⟨_, Or.inr rfl, ?_, ?_⟩
    · rw [hu]; simp only [specModel, if_pos hg, Vec3.add, outlineMargin]
    · intro hs
      rw [hu]
      simp only [specModel, if_pos hg, Vec3.add, outlineMargin, hs, F32.one_add_margin]
  · refine ⟨_, Or.inl rfl, ?_, ?_⟩
    · rw [hu]; simp only [specModel, if_neg hg, Vec3.add, outlineMargin]
    · intro hs
      rw [hu]
      simp only [specModel, if_neg hg, Vec3.add, outlineMargin, hs, F32.one_add_margin]

/-- C5 at a sample: `outlinedCube`, of scale (1, 1, 1), alone in the transparent queue. -/
theorem outline_second_draw_inflated_witness :
    outlinedCube.getShouldOutline = true
      ∧ IsTransparentSegment outlinedCube (Renderer.flush ⟨[], [outlinedCube]⟩).2
      ∧ drawCalls (Renderer.flush ⟨[], [outlinedCube]⟩).2
          = [(outlinedCube, ShaderArg.shader), (outlinedCube, ShaderArg.outlineShader)]
      ∧ ∃ placed : Mat4,
          uploads (Renderer.flush ⟨[], [outlinedCube]⟩).2
            = [(ShaderArg.shader, "model",
                 Mat4.scale placed ⟨F32.lit 1 1, F32.lit 1 1, F32.lit 1 1⟩),
               (ShaderArg.outlineShader, "model",
                 Mat4.scale placed
                   ⟨F32.lit 1025 1000, F32.lit 1025 1000, F32.lit 1025 1000⟩)] := by
  have h := outline_second_draw_inflated outlinedCube (Renderer.flush ⟨[], [outlinedCube]⟩).2
    rfl (Or.inr (isTransparentSegment_flush_single outlinedCube))
  obtain ⟨hd, placed, _, _, hone⟩ := h
  exact ⟨rfl, isTransparentSegment_flush_single outlinedCube, hd, placed, hone rfl⟩

theorem uploads_of_segment (r : Renderable3D) (seg : List GLCall)
    (hseg : IsOpaqueSegment r seg ∨ IsTransparentSegment r seg) :
    uploads seg
      = (ShaderArg.shader, "model", specModel r r.getScale)
        :: (if r.getShouldOutline = true then
              [(ShaderArg.outlineShader, "model", specModel r (r.getScale.add outlineMargin))]
            else []) := by
  rcases hseg with h | h
  · rw [h.eq_opaque_item, uploads_flushOpaqueItem]
  · rw [h.eq_transparent_item, uploads_flushTransparentItem]

/-- C6. For a queued renderable, in either queue and at any position: when the rotation
angle is zero (whatever the axis) or the rotation axis is (0, 0, 0) (whatever the
angle), the matrices `flush` uploads for the main pass and for the outline pass are
translate-then-scale, with no rotation step; when the angle is non-zero and some axis
component is non-zero they are translate, rotate(angle, axis), scale; and an uploaded
matrix has the rotation step only in that second case. -/
theorem rotation_guard (r : Renderable3D) (seg : List GLCall)
    (hseg : IsOpaqueSegment r seg ∨ IsTransparentSegment r seg) :
    ((r.getRadianRotation.IsZero ∨ (r.getRotationAxis.x.IsZero
          ∧ r.getRotationAxis.y.IsZero ∧ r.getRotationAxis.z.IsZero)) →
        uploads seg
          = (ShaderArg.shader, "model",
              Mat4.scale (Mat4.translate Mat4.identity r.getPosition) r.getScale)
            :: (if r.getShouldOutline = true then
                  [(ShaderArg.outlineShader, "model",
                    Mat4.scale (Mat4.translate Mat4.identity r.getPosition)
                      (r.getScale.add outlineMargin))]
                else []))
      ∧ ((¬ r.getRadianRotation.IsZero ∧ (¬ r.getRotationAxis.x.IsZero
          ∨ ¬ r.getRotationAxis.y.IsZero ∨ ¬ r.getRotationAxis.z.IsZero)) →
        uploads seg
          = (ShaderArg.shader, "model",
              Mat4.scale (Mat4.rotate (Mat4.translate Mat4.identity r.getPosition)
                r.getRadianRotation r.getRotationAxis) r.getScale)
            :: (if r.getShouldOutline = true then
                  [(ShaderArg.outlineShader, "model",
                    Mat4.scale (Mat4.rotate (Mat4.translate Mat4.identity r.getPosition)
                      r.getRadianRotation r.getRotationAxis)
                      (r.getScale.add outlineMargin))]
                else []))
      ∧ (∀ u ∈ uploads seg,
          (∃ s, u.2.2 = Mat4.scale (Mat4.rotate (Mat4.translate Mat4.identity r.getPosition)
              r.getRadianRotation r.getRotationAxis) s) →
          ¬ r.getRadianRotation.IsZero ∧ (¬ r.getRotationAxis.x.IsZero
            ∨ ¬ r.getRotationAxis.y.IsZero ∨ ¬ r.getRotationAxis.z.IsZero)) := by
  have hu := uploads_of_segment r seg hseg
  refine ⟨?_, ?_, ?_⟩
  · intro hz
    rw [hu, specModel_of_zero r _ hz, specModel_of_zero r _ hz]
  · intro hnz
    rw [hu, specModel_of_nonzero r _ hnz.1 hnz.2, specModel_of_nonzero r _ hnz.1 hnz.2]
  · intro u hmem hrot
    by_contra hnot
    have hz : r.getRadianRotation.IsZero ∨ (r.getRotationAxis.x.IsZero
        ∧ r.getRotationAxis.y.IsZero ∧ r.getRotationAxis.z.IsZero) := by
      by_contra hcon
      apply hnot
      push_neg at hcon
      refine ⟨hcon.1, ?_⟩
      by_contra hall
      push_neg at hall
      exact hcon.2 hall.1 hall.2.1 hall.2.2
    rw [hu, specModel_of_zero r _ hz, specModel_of_zero r _ hz] at hmem
    obtain ⟨s, hs⟩ := hrot
    cases ho : r.getShouldOutline <;> simp [ho] at hmem
    · rw [hmem] at hs; simp at hs
    · rcases hmem with hmem | hmem <;> · rw [hmem] at hs; simp at hs

/-- C6 at two samples: `plainCube` (angle zero) in the transparent queue has no rotation
step; `outlinedCube` (angle 0.5, axis y) in the opaque queue has one in both passes. -/
theorem rotation_guard_witness :
    (IsTransparentSegment plainCube (Renderer.flush ⟨[], [plainCube]⟩).2
      ∧ plainCube.getRadianRotation.IsZero
      ∧ uploads (Renderer.flush ⟨[], [plainCube]⟩).2
          = [(ShaderArg.shader, "model",
              Mat4.scale (Mat4.translate Mat4.identity plainCube.getPosition)
                plainCube.getScale)])
    ∧ (IsOpaqueSegment outlinedCube (Renderer.flush ⟨[outlinedCube], []⟩).2
      ∧ ¬ outlinedCube.getRadianRotation.IsZero
      ∧ ¬ outlinedCube.getRotationAxis.y.IsZero
      ∧ uploads (Renderer.flush ⟨[outlinedCube], []⟩).2
          = [(ShaderArg.shader, "model",
              Mat4.scale (Mat4.rotate (Mat4.translate Mat4.identity outlinedCube.getPosition)
                outlinedCube.getRadianRotation outlinedCube.getRotationAxis)
                outlinedCube.getScale),
             (ShaderArg.outlineShader, "model",
              Mat4.scale (Mat4.rotate (Mat4.translate Mat4.identity outlinedCube.getPosition)
                outlinedCube.getRadianRotation outlinedCube.getRotationAxis)
                (outlinedCube.getScale.add outlineMargin))]) := by
  have hz : plainCube.getRadianRotation.IsZero := Or.inl (by decide)
  have ha : ¬ outlinedCube.getRadianRotation.IsZero :=
    (F32.ne0_eq_true_iff _).1 (by set_option maxRecDepth 100000 in decide)
  have hy : ¬ outlinedCube.getRotationAxis.y.IsZero :=
    (F32.ne0_eq_true_iff _).1 (by set_option maxRecDepth 100000 in decide)
  refine ⟨⟨isTransparentSegment_flush_single plainCube, hz, ?_⟩,
    ⟨isOpaqueSegment_flush_single outlinedCube, ha, hy, ?_⟩⟩
  · have h := (rotation_guard plainCube _
      (Or.inr (isTransparentSegment_flush_single plainCube))).1 (Or.inl hz)
    simpa [plainCube] using h
  · have h := (rotation_guard outlinedCube _
      (Or.inl (isOpaqueSegment_flush_single outlinedCube))).2.1 ⟨ha, Or.inr (Or.inl hy)⟩
    simpa [outlinedCube] using h

/-- C8. For every renderable, the calls `flush` makes for it in the transparent queue are
the calls it makes for it in the opaque queue with two additions: `glEnable(GL_BLEND)`
and `glBlendFunc(GL_SRC_ALPHA, GL_ONE_MINUS_SRC_ALPHA)` inserted at a point before the
main draw, and `glDisable(GL_BLEND)` appended at the very end, after the optional outline
pass.  The opaque loop makes no blending call at all. -/
theorem transparent_is_opaque_plus_blending (r : Renderable3D)
    (opaqueSeg transparentSeg : List GLCall)
    (ho : IsOpaqueSegment r opaqueSeg) (ht : IsTransparentSegment r transparentSeg) :
    (∃ setup rest : List GLCall,
        opaqueSeg = setup ++ rest
        ∧ transparentSeg
            = setup
              ++ [GLCall.glEnable GLenum.GL_BLEND,
                  GLCall.glBlendFunc GLenum.GL_SRC_ALPHA GLenum.GL_ONE_MINUS_SRC_ALPHA]
              ++ rest ++ [GLCall.glDisable GLenum.GL_BLEND]
        ∧ drawCalls setup = []
        ∧ drawCalls rest = drawCalls opaqueSeg)
      ∧ (∀ c ∈ opaqueSeg, c.isBlend = false)
      ∧ (∀ queue : List Renderable3D,
          ∀ c ∈ (Renderer.flushOpaqueLoop queue []).2, c.isBlend = false) := by
  have hitem : ∀ x : Renderable3D, ∀ c ∈ Renderer.flushOpaqueItem x, c.isBlend = false := by
    intro x
    have hall : (Renderer.flushOpaqueItem x).all (fun c => !c.isBlend) = true := by
      cases hx : x.getShouldOutline <;> simp [Renderer.flushOpaqueItem, hx, GLCall.isBlend]
    intro c hc
    have hc2 := List.all_eq_true.1 hall c hc
    simpa using hc2
  refine ⟨⟨(Renderer.flushOpaqueItem r).take 4, (Renderer.flushOpaqueItem r).drop 4,
    ?_, ?_, ?_, ?_⟩, ?_, ?_⟩
  · rw [ho.eq_opaque_item, List.take_append_drop]
  · rw [ht.eq_transparent_item]
    cases hx : r.getShouldOutline <;>
      simp [Renderer.flushOpaqueItem, Renderer.flushTransparentItem, hx]
  · simp [Renderer.flushOpaqueItem, drawCalls]
  · rw [ho.eq_opaque_item]
    simp [Renderer.flushOpaqueItem, drawCalls]
  · rw [ho.eq_opaque_item]
    exact hitem r
  · intro queue c hc
    rw [flushOpaqueLoop_eq] at hc
    simp only [List.nil_append, List.mem_flatMap] at hc
    obtain ⟨x, _, hx⟩ := hc
    exact hitem x c hx

/-- C8 at a sample: `outlinedCube` in the opaque queue and in the transparent queue. -/
theorem transparent_is_opaque_plus_blending_witness :
    IsOpaqueSegment outlinedCube (Renderer.flush ⟨[outlinedCube], []⟩).2
      ∧ IsTransparentSegment outlinedCube (Renderer.flush ⟨[], [outlinedCube]⟩).2
      ∧ ∃ setup rest : List GLCall,
        (Renderer.flush ⟨[outlinedCube], []⟩).2 = setup ++ rest
        ∧ (Renderer.flush ⟨[], [outlinedCube]⟩).2
            = setup
              ++ [GLCall.glEnable GLenum.GL_BLEND,
                  GLCall.glBlendFunc GLenum.GL_SRC_ALPHA GLenum.GL_ONE_MINUS_SRC_ALPHA]
              ++ rest ++ [GLCall.glDisable GLenum.GL_BLEND]
        ∧ drawCalls setup = []
        ∧ drawCalls rest = drawCalls (Renderer.flush ⟨[outlinedCube], []⟩).2 :=
  ⟨isOpaqueSegment_flush_single outlinedCube, isTransparentSegment_flush_single outlinedCube,
    (transparent_is_opaque_plus_blending outlinedCube _ _
      (isOpaqueSegment_flush_single outlinedCube)
      (isTransparentSegment_flush_single outlinedCube)).1⟩

/-! ## The order of calls within one element -/

/-- C9, as stated, fails for a renderable without outline: for `plainCube` alone in the
opaque queue the log of `flush` ends with the main draw and holds no `glClear`. -/
theorem no_stencil_clear_without_outline :
    plainCube.getShouldOutline = false
      ∧ IsOpaqueSegment plainCube (Renderer.flush ⟨[plainCube], []⟩).2
      ∧ (Renderer.flush ⟨[plainCube], []⟩).2.getLast?
          = some (GLCall.draw plainCube ShaderArg.shader)
      ∧ ∀ mask, GLCall.glClear mask ∉ (Renderer.flush ⟨[plainCube], []⟩).2 := by
  have hflag : plainCube.getShouldOutline = false := rfl
  refine ⟨rfl, isOpaqueSegment_flush_single plainCube, ?_, ?_⟩
  · simp [flush_log, Renderer.flushOpaqueItem, hflag]
  · simp [flush_log, Renderer.flushOpaqueItem, hflag]

/-- C9, amended.  The calls `flush` makes for a queued renderable, in either queue, form
one uninterrupted stretch of the log (no call for a later element comes before its end).
Without the outline flag the stretch holds the main draw as its only draw and no
stencil clear.  With the outline flag it holds the main draw, then the outline draw with
the stencil function set to not-equal in between, then one stencil-buffer clear after
the outline draw, and no other draw or clear. -/
theorem item_call_sequence (r : Renderable3D) :
    IsOpaqueSegment r (Renderer.flush ⟨[r], []⟩).2
      ∧ IsTransparentSegment r (Renderer.flush ⟨[], [r]⟩).2
      ∧ ∀ seg, (seg = (Renderer.flush ⟨[r], []⟩).2 ∨ seg = (Renderer.flush ⟨[], [r]⟩).2) →
          (r.getShouldOutline = false →
            (∃ a tail, seg = a ++ GLCall.draw r ShaderArg.shader :: tail
              ∧ drawCalls a = [] ∧ drawCalls tail = [])
            ∧ ∀ mask, GLCall.glClear mask ∉ seg)
          ∧ (r.getShouldOutline = true →
            ∃ a b c tail,
              seg = a ++ GLCall.draw r ShaderArg.shader
                      :: (b ++ GLCall.draw r ShaderArg.outlineShader
                        :: (c ++ GLCall.glClear GLenum.GL_STENCIL_BUFFER_BIT :: tail))
              ∧ drawCalls a = [] ∧ drawCalls b = [] ∧ drawCalls c = [] ∧ drawCalls tail = []
              ∧ GLCall.glStencilFunc GLenum.GL_NOTEQUAL 1 0xFF ∈ b
              ∧ ∀ mask, GLCall.glClear mask ∉ a ++ b ++ c ++ tail) := by
  refine ⟨isOpaqueSegment_flush_single r, isTransparentSegment_flush_single r, ?_⟩
  intro seg hseg
  constructor
  · intro hflag
    rcases hseg with h | h
    · subst h
      refine ⟨⟨(Renderer.flushOpaqueItem r).take 5, [], ?_, ?_, ?_⟩, ?_⟩ <;>
        simp [flush_log, Renderer.flushOpaqueItem, hflag, drawCalls]
    · subst h
      refine ⟨⟨(Renderer.flushTransparentItem r).take 7,
        [GLCall.glDisable GLenum.GL_BLEND], ?_, ?_, ?_⟩, ?_⟩ <;>
        simp [flush_log, Renderer.flushTransparentItem, hflag, drawCalls]
  · intro hflag
    rcases hseg with h | h
    · subst h
      refine ⟨(Renderer.flushOpaqueItem r).take 5,
        ((Renderer.flushOpaqueItem r).drop 6).take 3,
        ((Renderer.flushOpaqueItem r).drop 10).take 4, [], ?_, ?_, ?_, ?_, ?_, ?_, ?_⟩ <;>
        simp [flush_log, Renderer.flushOpaqueItem, hflag, drawCalls]
    · subst h
      refine ⟨(Renderer.flushTransparentItem r).take 7,
        ((Renderer.flushTransparentItem r).drop 8).take 3,
        ((Renderer.flushTransparentItem r).drop 12).take 4,
        [GLCall.glDisable GLenum.GL_BLEND], ?_, ?_, ?_, ?_, ?_, ?_, ?_⟩ <;>
        simp [flush_log, Renderer.flushTransparentItem, hflag, drawCalls]

/-- C9 amended, at a sample: `outlinedCube` alone in the transparent queue. -/
theorem item_call_sequence_witness :
    outlinedCube.getShouldOutline = true
      ∧ ∃ a b c tail,
          (Renderer.flush ⟨[], [outlinedCube]⟩).2
            = a ++ GLCall.draw outlinedCube ShaderArg.shader
                :: (b ++ GLCall.draw outlinedCube ShaderArg.outlineShader
                  :: (c ++ GLCall.glClear GLenum.GL_STENCIL_BUFFER_BIT :: tail))
          ∧ drawCalls a = [] ∧ drawCalls b = [] ∧ drawCalls c = [] ∧ drawCalls tail = []
          ∧ GLCall.glStencilFunc GLenum.GL_NOTEQUAL 1 0xFF ∈ b
          ∧ ∀ mask, GLCall.glClear mask ∉ a ++ b ++ c ++ tail :=
  ⟨rfl, ((item_call_sequence outlinedCube).2.2 _ (Or.inr rfl)).2 rfl⟩

/-! ## The context at each draw call -/

theorem GpuState.run_append (st : GpuState) (a b : List GLCall) :
    st.run (a ++ b) = (st.run a).run b := by
  simp [GpuState.run, List.foldl_append]

theorem GpuState.drawStates_append (st : GpuState) (a b : List GLCall) :
    GpuState.drawStates st (a ++ b)
      = GpuState.drawStates st a ++ GpuState.drawStates (st.run a) b := by
  induction a generalizing st with
  | nil => simp [GpuState.drawStates, GpuState.run]
  | cons c rest ih =>
    simp [GpuState.drawStates, GpuState.run, ih, List.append_assoc]

theorem GpuState.mem_drawStates_of_split (st : GpuState) (pre post : List GLCall)
    (r : Renderable3D) (s : ShaderArg) :
    (r, s, st.run pre) ∈ GpuState.drawStates st (pre ++ GLCall.draw r s :: post) := by
  rw [GpuState.drawStates_append]
  simp [GpuState.drawStates]

theorem GpuState.drawReady_opaque_item (r : Renderable3D) (st : GpuState) :
    ∀ e ∈ GpuState.drawStates st (Renderer.flushOpaqueItem r),
      GpuState.DrawReady e.2.1 e.2.2 := by
  intro e he
  cases ho : r.getShouldOutline <;>
    simp [Renderer.flushOpaqueItem, ho, GpuState.drawStates, GpuState.apply] at he
  · subst he
    simp [GpuState.DrawReady]
  · rcases he with he | he <;> subst he <;> simp [GpuState.DrawReady]

theorem GpuState.drawReady_transparent_item (r : Renderable3D) (st : GpuState) :
    ∀ e ∈ GpuState.drawStates st (Renderer.flushTransparentItem r),
      GpuState.DrawReady e.2.1 e.2.2 := by
  intro e he
  cases ho : r.getShouldOutline <;>
    simp [Renderer.flushTransparentItem, ho, GpuState.drawStates, GpuState.apply] at he
  · subst he
    simp [GpuState.DrawReady]
  · rcases he with he | he <;> subst he <;> simp [GpuState.DrawReady]

theorem GpuState.drawReady_queue (f : Renderable3D → List GLCall)
    (hf : ∀ r st, ∀ e ∈ GpuState.drawStates st (f r), GpuState.DrawReady e.2.1 e.2.2)
    (queue : List Renderable3D) (st : GpuState) :
    ∀ e ∈ GpuState.drawStates st (queue.flatMap f), GpuState.DrawReady e.2.1 e.2.2 := by
  induction queue generalizing st with
  | nil => simp [GpuState.drawStates]
  | cons r rest ih =>
    intro e he
    rw [List.flatMap_cons, GpuState.drawStates_append, List.mem_append] at he
    rcases he with he | he
    · exact hf r st e he
    · exact ih _ e he

theorem GpuState.drawReady_flush (self : Renderer) (st : GpuState) :
    ∀ e ∈ GpuState.drawStates st self.flush.2, GpuState.DrawReady e.2.1 e.2.2 := by
  intro e he
  rw [flush_log, GpuState.drawStates_append, List.mem_append] at he
  rcases he with he | he
  · exact GpuState.drawReady_queue _ GpuState.drawReady_opaque_item _ _ e he
  · exact GpuState.drawReady_queue _ GpuState.drawReady_transparent_item _ _ e he

/-- C10. Follow the OpenGL context through the log of `flush`, from any context at entry
and for any queues.  At every main-pass draw call the depth test is on, the stencil op
is (keep, keep, replace), the stencil function is (always, 1, 0xFF) and the stencil write
mask is 0xFF; at every outline draw call the stencil function is (not equal, 1, 0xFF). -/
theorem context_at_draw_calls (self : Renderer) (initial : GpuState)
    (pre post : List GLCall) (r : Renderable3D) (s : ShaderArg)
    (hlog : self.flush.2 = pre ++ GLCall.draw r s :: post) :
    (s = ShaderArg.shader →
        (initial.run pre).depthTest = true
        ∧ (initial.run pre).stencilOp = (GLenum.GL_KEEP, GLenum.GL_KEEP, GLenum.GL_REPLACE)
        ∧ (initial.run pre).stencilFunc = (GLenum.GL_ALWAYS, 1, 0xFF)
        ∧ (initial.run pre).stencilMask = 0xFF)
      ∧ (s = ShaderArg.outlineShader →
        (initial.run pre).stencilFunc = (GLenum.GL_NOTEQUAL, 1, 0xFF)) := by
  have hmem := GpuState.mem_drawStates_of_split initial pre post r s
  rw [← hlog] at hmem
  exact GpuState.drawReady_flush self initial _ hmem

/-- C10 at a sample: `outlinedCube` then `plainCube` in the opaque queue, from a context
with everything off.  The main draw of `plainCube` is the 21st call, right after the
outline pass of `outlinedCube`. -/
theorem context_at_draw_calls_witness :
    (Renderer.flush ⟨[outlinedCube, plainCube], []⟩).2
        = (Renderer.flush ⟨[outlinedCube, plainCube], []⟩).2.take 20
          ++ GLCall.draw plainCube ShaderArg.shader
            :: (Renderer.flush ⟨[outlinedCube, plainCube], []⟩).2.drop 21
      ∧ (GpuState.allOff.run
          ((Renderer.flush ⟨[outlinedCube, plainCube], []⟩).2.take 20)).depthTest = true
      ∧ (GpuState.allOff.run
          ((Renderer.flush ⟨[outlinedCube, plainCube], []⟩).2.take 20)).stencilOp
          = (GLenum.GL_KEEP, GLenum.GL_KEEP, GLenum.GL_REPLACE)
      ∧ (GpuState.allOff.run
          ((Renderer.flush ⟨[outlinedCube, plainCube], []⟩).2.take 20)).stencilFunc
          = (GLenum.GL_ALWAYS, 1, 0xFF)
      ∧ (GpuState.allOff.run
          ((Renderer.flush ⟨[outlinedCube, plainCube], []⟩).2.take 20)).stencilMask = 0xFF := by
  have hsplit : (Renderer.flush ⟨[outlinedCube, plainCube], []⟩).2
      = (Renderer.flush ⟨[outlinedCube, plainCube], []⟩).2.take 20
        ++ GLCall.draw plainCube ShaderArg.shader
          :: (Renderer.flush ⟨[outlinedCube, plainCube], []⟩).2.drop 21 := by
    have h1 : outlinedCube.getShouldOutline = true := rfl
    have h2 : plainCube.getShouldOutline = false := rfl
    simp [flush_log, Renderer.flushOpaqueItem, h1, h2]
  exact ⟨hsplit, (context_at_draw_calls _ GpuState.allOff _ _ _ _ hsplit).1 rfl⟩

/-! ## The program in use at each draw call -/

theorem GpuState.program_opaque_item (r : Renderable3D) (st : GpuState)
    (hst : st.program = some ShaderArg.shader) :
    (∀ e ∈ GpuState.drawStates st (Renderer.flushOpaqueItem r), e.2.2.program = some e.2.1)
      ∧ (st.run (Renderer.flushOpaqueItem r)).program = some ShaderArg.shader := by
  cases ho : r.getShouldOutline <;>
    simp [Renderer.flushOpaqueItem, ho, GpuState.drawStates, GpuState.apply, GpuState.run, hst]

theorem GpuState.program_transparent_item (r : Renderable3D) (st : GpuState)
    (hst : st.program = some ShaderArg.shader) :
    (∀ e ∈ GpuState.drawStates st (Renderer.flushTransparentItem r),
        e.2.2.program = some e.2.1)
      ∧ (st.run (Renderer.flushTransparentItem r)).program = some ShaderArg.shader := by
  cases ho : r.getShouldOutline <;>
    simp [Renderer.flushTransparentItem, ho, GpuState.drawStates, GpuState.apply,
      GpuState.run, hst]

theorem GpuState.program_queue (f : Renderable3D → List GLCall)
    (hf : ∀ r st, st.program = some ShaderArg.shader →
      (∀ e ∈ GpuState.drawStates st (f r), e.2.2.program = some e.2.1)
        ∧ (st.run (f r)).program = some ShaderArg.shader)
    (queue : List Renderable3D) (st : GpuState) (hst : st.program = some ShaderArg.shader) :
    (∀ e ∈ GpuState.drawStates st (queue.flatMap f), e.2.2.program = some e.2.1)
      ∧ (st.run (queue.flatMap f)).program = some ShaderArg.shader := by
  induction queue generalizing st with
  | nil => simpa [GpuState.drawStates, GpuState.run] using hst
  | cons r rest ih =>
    obtain ⟨h1, h2⟩ := hf r st hst
    obtain ⟨h3, h4⟩ := ih (st.run (f r)) h2
    constructor
    · intro e he
      rw [List.flatMap_cons, GpuState.drawStates_append, List.mem_append] at he
      rcases he with he | he
      · exact h1 e he
      · exact h3 e he
    · rw [List.flatMap_cons, GpuState.run_append]
      exact h4

theorem GpuState.program_flush (self : Renderer) (st : GpuState)
    (hst : st.program = some ShaderArg.shader) :
    ∀ e ∈ GpuState.drawStates st self.flush.2, e.2.2.program = some e.2.1 := by
  intro e he
  rw [flush_log, GpuState.drawStates_append, List.mem_append] at he
  obtain ⟨h1, h2⟩ := GpuState.program_queue _ GpuState.program_opaque_item
    self.m_OpaqueRenderQueue st hst
  rcases he with he | he
  · exact h1 e he
  · exact (GpuState.program_queue _ GpuState.program_transparent_item
      self.m_TransparentRenderQueue _ h2).1 e he

theorem drawCalls_tail_of_nil (c : GLCall) (t : List GLCall)
    (h : drawCalls (c :: t) = []) : drawCalls t = [] := by
  unfold drawCalls at h ⊢
  rw [List.filterMap_cons] at h
  split at h
  · exact h
  · exact absurd h (List.cons_ne_nil _ _)

theorem first_draw_unique (a c b d : List GLCall) (x y : Renderable3D) (sx sy : ShaderArg)
    (ha : drawCalls a = []) (hc : drawCalls c = [])
    (h : a ++ GLCall.draw x sx :: b = c ++ GLCall.draw y sy :: d) : a = c := by
  induction a generalizing c with
  | nil =>
    cases c with
    | nil => rfl
    | cons c0 ct =>
      simp only [List.nil_append, List.cons_append, List.cons.injEq] at h
      rw [← h.1] at hc
      simp [drawCalls] at hc
  | cons a0 at_ ih =>
    cases c with
    | nil =>
      simp only [List.nil_append, List.cons_append, List.cons.injEq] at h
      rw [h.1] at ha
      simp [drawCalls] at ha
    | cons c0 ct =>
      simp only [List.cons_append, List.cons.injEq] at h
      rw [h.1, ih ct (drawCalls_tail_of_nil a0 at_ ha) (drawCalls_tail_of_nil c0 ct hc) h.2]

theorem flush_first_block (self : Renderer) :
    self.flush.2 = [] ∨ ∃ (setup : List GLCall) (r0 : Renderable3D) (rest : List GLCall),
      self.flush.2 = setup ++ GLCall.draw r0 ShaderArg.shader :: rest
      ∧ drawCalls setup = []
      ∧ (∀ sh, GLCall.enable sh ∉ setup)
      ∧ ∀ st : GpuState, (st.run setup).program = st.program := by
  obtain ⟨opq, tr⟩ := self
  cases opq with
  | cons r0 others =>
    refine Or.inr ⟨(Renderer.flushOpaqueItem r0).take 5, r0,
      (Renderer.flushOpaqueItem r0).drop 6 ++ others.flatMap Renderer.flushOpaqueItem
        ++ tr.flatMap Renderer.flushTransparentItem, ?_, ?_, ?_, ?_⟩
    · simp [flush_log, Renderer.flushOpaqueItem]
    · simp [Renderer.flushOpaqueItem, drawCalls]
    · simp [Renderer.flushOpaqueItem]
    · intro st
      simp [Renderer.flushOpaqueItem, GpuState.run, GpuState.apply]
  | nil =>
    cases tr with
    | nil => exact Or.inl (by simp [flush_log])
    | cons r0 others =>
      refine Or.inr ⟨(Renderer.flushTransparentItem r0).take 7, r0,
        (Renderer.flushTransparentItem r0).drop 8
          ++ others.flatMap Renderer.flushTransparentItem, ?_, ?_, ?_, ?_⟩
      · simp [flush_log, Renderer.flushTransparentItem]
      · simp [Renderer.flushTransparentItem, drawCalls]
      · simp [Renderer.flushTransparentItem]
      · intro st
        simp [Renderer.flushTransparentItem, GpuState.run, GpuState.apply]

/-- C11. Follow the program in use through the log of `flush`, a shader's `enable`
making it the program in use and `disable` leaving none.  If the main shader is in use
at entry, then at every draw call the shader the draw is made with is the one in use:
the main shader at main-pass draws, the outline shader at outline draws.  Before the
first draw call `flush` enables no shader, so the first draw, a main-pass draw, is
issued with whatever program was in use at entry. -/
theorem program_at_draw_calls (self : Renderer) (initial : GpuState)
    (pre post : List GLCall) (r : Renderable3D) (s : ShaderArg)
    (hlog : self.flush.2 = pre ++ GLCall.draw r s :: post) :
    (initial.program = some ShaderArg.shader → (initial.run pre).program = some s)
      ∧ (drawCalls pre = [] →
          s = ShaderArg.shader
          ∧ (∀ sh, GLCall.enable sh ∉ pre)
          ∧ (initial.run pre).program = initial.program) := by
  constructor
  · intro hst
    have hmem := GpuState.mem_drawStates_of_split initial pre post r s
    rw [← hlog] at hmem
    exact GpuState.program_flush self initial hst _ hmem
  · intro hpre
    rcases flush_first_block self with hnil | ⟨setup, r0, rest, hsplit, hsetup, hen, hprog⟩
    · rw [hnil] at hlog
      simp at hlog
    · rw [hsplit] at hlog
      have hsame : setup = pre := first_draw_unique _ _ _ _ _ _ _ _ hsetup hpre hlog
      subst hsame
      have hhead := List.append_cancel_left hlog
      simp only [List.cons.injEq, GLCall.draw.injEq] at hhead
      exact ⟨hhead.1.2.symm, hen, hprog initial⟩

/-- C11 at a sample: `outlinedCube` then `plainCube` in the opaque queue.  With the main
shader in use at entry it is in use again at the main draw of `plainCube`, the 21st
call; with no program in use at entry, none is in use at the first draw, the 6th call. -/
theorem program_at_draw_calls_witness :
    (({ GpuState.allOff with program := some ShaderArg.shader } : GpuState).program
        = some ShaderArg.shader
      ∧ (Renderer.flush ⟨[outlinedCube, plainCube], []⟩).2
        = (Renderer.flush ⟨[outlinedCube, plainCube], []⟩).2.take 20
          ++ GLCall.draw plainCube ShaderArg.shader
            :: (Renderer.flush ⟨[outlinedCube, plainCube], []⟩).2.drop 21
      ∧ (({ GpuState.allOff with program := some ShaderArg.shader } : GpuState).run
          ((Renderer.flush ⟨[outlinedCube, plainCube], []⟩).2.take 20)).program
        = some ShaderArg.shader)
    ∧ ((Renderer.flush ⟨[outlinedCube, plainCube], []⟩).2
        = (Renderer.flush ⟨[outlinedCube, plainCube], []⟩).2.take 5
          ++ GLCall.draw outlinedCube ShaderArg.shader
            :: (Renderer.flush ⟨[outlinedCube, plainCube], []⟩).2.drop 6
      ∧ drawCalls ((Renderer.flush ⟨[outlinedCube, plainCube], []⟩).2.take 5) = []
      ∧ (GpuState.allOff.run
          ((Renderer.flush ⟨[outlinedCube, plainCube], []⟩).2.take 5)).program = none) := by
  have h1 : outlinedCube.getShouldOutline = true := rfl
  have h2 : plainCube.getShouldOutline = false := rfl
  have hsplit : (Renderer.flush ⟨[outlinedCube, plainCube], []⟩).2
      = (Renderer.flush ⟨[outlinedCube, plainCube], []⟩).2.take 20
        ++ GLCall.draw plainCube ShaderArg.shader
          :: (Renderer.flush ⟨[outlinedCube, plainCube], []⟩).2.drop 21 := by
    simp [flush_log, Renderer.flushOpaqueItem, h1, h2]
  have hfirst : (Renderer.flush ⟨[outlinedCube, plainCube], []⟩).2
      = (Renderer.flush ⟨[outlinedCube, plainCube], []⟩).2.take 5
        ++ GLCall.draw outlinedCube ShaderArg.shader
          :: (Renderer.flush ⟨[outlinedCube, plainCube], []⟩).2.drop 6 := by
    simp [flush_log, Renderer.flushOpaqueItem, h1, h2]
  have hnone : drawCalls ((Renderer.flush ⟨[outlinedCube, plainCube], []⟩).2.take 5) = [] := by
    simp [flush_log, Renderer.flushOpaqueItem, h1, h2, drawCalls]
  exact ⟨⟨rfl, hsplit, (program_at_draw_calls _ _ _ _ _ _ hsplit).1 rfl⟩,
    ⟨hfirst, hnone,
      ((program_at_draw_calls _ GpuState.allOff _ _ _ _ hfirst).2 hnone).2.2⟩⟩

/-! ## Termination -/

theorem runWhile_opaque_loop (queue : List Renderable3D) (log : List GLCall) (n fuel : Nat)
    (h : queue.length < fuel) :
    runWhile Renderer.opaqueIteration fuel ⟨queue, log, n⟩
      = some ⟨[], log ++ queue.flatMap Renderer.flushOpaqueItem, n + queue.length⟩ := by
  induction queue generalizing log n fuel with
  | nil =>
    cases fuel with
    | zero => simp at h
    | succ k => simp [runWhile, Renderer.opaqueIteration]
  | cons r rest ih =>
    cases fuel with
    | zero => simp at h
    | succ k =>
      have hk : rest.length < k := by simpa using h
      simp [runWhile, Renderer.opaqueIteration, ih _ _ k hk, List.append_assoc]
      omega

theorem runWhile_transparent_loop (queue : List Renderable3D) (log : List GLCall) (n fuel : Nat)
    (h : queue.length < fuel) :
    runWhile Renderer.transparentIteration fuel ⟨queue, log, n⟩
      = some ⟨[], log ++ queue.flatMap Renderer.flushTransparentItem, n + queue.length⟩ := by
  induction queue generalizing log n fuel with
  | nil =>
    cases fuel with
    | zero => simp at h
    | succ k => simp [runWhile, Renderer.transparentIteration]
  | cons r rest ih =>
    cases fuel with
    | zero => simp at h
    | succ k =>
      have hk : rest.length < k := by simpa using h
      simp [runWhile, Renderer.transparentIteration, ih _ _ k hk, List.append_assoc]
      omega

/-- C12. `flush` terminates on every pair of queues: run one iteration at a time, with
any budget of condition tests larger than both queue lengths, it returns, with the same
renderer and log as `flush`, after exactly as many iterations of the first loop as the
opaque queue is long and as many of the second loop as the transparent queue is long.
Each iteration removes exactly the front element of its queue. -/
theorem flush_terminates_with_exact_iterations (self : Renderer) (fuel : Nat)
    (hOpaque : self.m_OpaqueRenderQueue.length < fuel)
    (hTransparent : self.m_TransparentRenderQueue.length < fuel) :
    self.flushStepwise fuel
        = some (self.flush.1, self.flush.2, self.m_OpaqueRenderQueue.length,
            self.m_TransparentRenderQueue.length)
      ∧ (∀ st next, Renderer.opaqueIteration st = some next →
          ∃ current, st.queue = current :: next.queue
            ∧ next.iterations = st.iterations + 1)
      ∧ (∀ st next, Renderer.transparentIteration st = some next →
          ∃ current, st.queue = current :: next.queue
            ∧ next.iterations = st.iterations + 1) := by
  refine ⟨?_, ?_, ?_⟩
  · simp [Renderer.flushStepwise, runWhile_opaque_loop _ _ _ _ hOpaque,
      runWhile_transparent_loop _ _ _ _ hTransparent, flush_state, flush_log, Renderer.new]
  · intro st next h
    obtain ⟨queue, log, n⟩ := st
    cases queue with
    | nil => simp [Renderer.opaqueIteration] at h
    | cons current rest =>
      simp only [Renderer.opaqueIteration, Option.some.injEq] at h
      subst h
      exact ⟨current, rfl, rfl⟩
  · intro st next h
    obtain ⟨queue, log, n⟩ := st
    cases queue with
    | nil => simp [Renderer.transparentIteration] at h
    | cons current rest =>
      simp only [Renderer.transparentIteration, Option.some.injEq] at h
      subst h
      exact ⟨current, rfl, rfl⟩

/-- C12 at a sample: two opaque and one transparent renderable, budget 3. -/
theorem flush_terminates_with_exact_iterations_witness :
    (Renderer.flushStepwise 3 ⟨[outlinedCube, plainCube], [plainCube]⟩)
      = some ((Renderer.flush ⟨[outlinedCube, plainCube], [plainCube]⟩).1,
          (Renderer.flush ⟨[outlinedCube, plainCube], [plainCube]⟩).2, 2, 1) :=
  (flush_terminates_with_exact_iterations ⟨[outlinedCube, plainCube], [plainCube]⟩ 3
    (by decide) (by decide)).1

/-! ## Counting draws and clears -/

theorem drawCalls_append (a b : List GLCall) :
    drawCalls (a ++ b) = drawCalls a ++ drawCalls b := by
  simp [drawCalls]

theorem stencilClears_append (a b : List GLCall) :
    stencilClears (a ++ b) = stencilClears a + stencilClears b := by
  simp [stencilClears]

theorem count_opaque_item (r : Renderable3D) :
    (drawCalls (Renderer.flushOpaqueItem r)).length = 1 + outlinedCount [r]
      ∧ stencilClears (Renderer.flushOpaqueItem r) = outlinedCount [r] := by
  cases ho : r.getShouldOutline <;>
    simp [Renderer.flushOpaqueItem, ho, drawCalls, stencilClears, outlinedCount]

theorem count_transparent_item (r : Renderable3D) :
    (drawCalls (Renderer.flushTransparentItem r)).length = 1 + outlinedCount [r]
      ∧ stencilClears (Renderer.flushTransparentItem r) = outlinedCount [r] := by
  cases ho : r.getShouldOutline <;>
    simp [Renderer.flushTransparentItem, ho, drawCalls, stencilClears, outlinedCount]

theorem outlinedCount_cons (r : Renderable3D) (rest : List Renderable3D) :
    outlinedCount (r :: rest) = outlinedCount [r] + outlinedCount rest := by
  cases ho : r.getShouldOutline <;> simp [outlinedCount, ho, Nat.add_comm]

theorem count_queue (f : Renderable3D → List GLCall)
    (hf : ∀ r, (drawCalls (f r)).length = 1 + outlinedCount [r]
      ∧ stencilClears (f r) = outlinedCount [r])
    (queue : List Renderable3D) :
    (drawCalls (queue.flatMap f)).length = queue.length + outlinedCount queue
      ∧ stencilClears (queue.flatMap f) = outlinedCount queue := by
  induction queue with
  | nil => simp [drawCalls, stencilClears, outlinedCount]
  | cons r rest ih =>
    obtain ⟨h1, h2⟩ := hf r
    obtain ⟨h3, h4⟩ := ih
    rw [List.flatMap_cons, drawCalls_append, stencilClears_append, List.length_append,
      outlinedCount_cons r rest, h1, h2, h3, h4, List.length_cons]
    constructor
    · omega
    · rfl

/-- C15. For every opaque queue and transparent queue, the number of draw calls `flush`
makes is the number of queued renderables plus the number of them whose outline flag is
set, and the number of stencil-buffer clears is the number of them whose outline flag is
set. -/
theorem flush_draw_and_clear_counts (self : Renderer) :
    (drawCalls self.flush.2).length
        = self.m_OpaqueRenderQueue.length + self.m_TransparentRenderQueue.length
          + (outlinedCount self.m_OpaqueRenderQueue
              + outlinedCount self.m_TransparentRenderQueue)
      ∧ stencilClears self.flush.2
        = outlinedCount self.m_OpaqueRenderQueue
          + outlinedCount self.m_TransparentRenderQueue := by
  obtain ⟨h1, h2⟩ := count_queue _ count_opaque_item self.m_OpaqueRenderQueue
  obtain ⟨h3, h4⟩ := count_queue _ count_transparent_item self.m_TransparentRenderQueue
  rw [flush_log, drawCalls_append, stencilClears_append, List.length_append, h1, h2, h3, h4]
  constructor
  · omega
  · rfl

/-! ## One flush or two -/

theorem submitAll_log (self : Renderer) (calls : List Submission) :
    (self.submitAll calls).2 = [] := by
  induction calls generalizing self with
  | nil => simp [Renderer.submitAll]
  | cons c rest ih =>
    cases c <;>
      simp [Renderer.submitAll, ih, Renderer.submitOpaque, Renderer.submitTransparent]

theorem twoFlushes_log (first second : List Submission) :
    Renderer.new.twoFlushes first second
      = (Submission.opaques first).flatMap Renderer.flushOpaqueItem
        ++ (Submission.transparents first).flatMap Renderer.flushTransparentItem
        ++ ((Submission.opaques second).flatMap Renderer.flushOpaqueItem
        ++ (Submission.transparents second).flatMap Renderer.flushTransparentItem) := by
  simp [Renderer.twoFlushes, submitAll_log, submitAll_state, flush_state, flush_log,
    Renderer.new]

theorem oneFlush_log (first second : List Submission) :
    Renderer.new.oneFlush first second
      = ((Submission.opaques first).flatMap Renderer.flushOpaqueItem
        ++ (Submission.opaques second).flatMap Renderer.flushOpaqueItem)
        ++ ((Submission.transparents first).flatMap Renderer.flushTransparentItem
        ++ (Submission.transparents second).flatMap Renderer.flushTransparentItem) := by
  simp [Renderer.oneFlush, submitAll_log, submitAll_state, flush_log, Renderer.new,
    Submission.opaques, Submission.transparents]

theorem opaques_map_submitOpaque (xs : List Renderable3D) :
    Submission.opaques (xs.map Submission.submitOpaque) = xs
      ∧ Submission.transparents (xs.map Submission.submitOpaque) = [] := by
  induction xs with
  | nil => simp [Submission.opaques, Submission.transparents]
  | cons x rest ih =>
    obtain ⟨h1, h2⟩ := ih
    simp only [Submission.opaques, Submission.transparents] at h1 h2 ⊢
    simp [h1, h2]

theorem transparents_map_submitTransparent (xs : List Renderable3D) :
    Submission.opaques (xs.map Submission.submitTransparent) = []
      ∧ Submission.transparents (xs.map Submission.submitTransparent) = xs := by
  induction xs with
  | nil => simp [Submission.opaques, Submission.transparents]
  | cons x rest ih =>
    obtain ⟨h1, h2⟩ := ih
    simp only [Submission.opaques, Submission.transparents] at h1 h2 ⊢
    simp [h1, h2]

theorem plainCube_ne_outlinedCube : plainCube ≠ outlinedCube := by
  intro h
  have hflag := congrArg Renderable3D.getShouldOutline h
  simp [plainCube, outlinedCube] at hflag

/-- C16. The log of `flush` is the concatenation, in queue order, of one block per queued
renderable, the block depending on that renderable alone (and on which queue it is in).
So for submissions to the opaque queue only, or to the transparent queue only, submit,
flush, submit, flush makes the same calls as submit, submit, flush.  With both queues in
use the two logs hold the same calls but can differ in order. -/
theorem flush_is_per_item :
    (∃ opaqueBlock transparentBlock : Renderable3D → List GLCall, ∀ self : Renderer,
        self.flush.2 = self.m_OpaqueRenderQueue.flatMap opaqueBlock
          ++ self.m_TransparentRenderQueue.flatMap transparentBlock)
      ∧ (∀ xs ys : List Renderable3D,
          Renderer.new.twoFlushes (xs.map Submission.submitOpaque)
              (ys.map Submission.submitOpaque)
            = Renderer.new.oneFlush (xs.map Submission.submitOpaque)
              (ys.map Submission.submitOpaque))
      ∧ (∀ xs ys : List Renderable3D,
          Renderer.new.twoFlushes (xs.map Submission.submitTransparent)
              (ys.map Submission.submitTransparent)
            = Renderer.new.oneFlush (xs.map Submission.submitTransparent)
              (ys.map Submission.submitTransparent))
      ∧ (∀ first second : List Submission,
          (Renderer.new.twoFlushes first second).Perm (Renderer.new.oneFlush first second))
      ∧ Renderer.new.twoFlushes
            [Submission.submitOpaque plainCube, Submission.submitTransparent plainCube]
            [Submission.submitOpaque outlinedCube]
          ≠ Renderer.new.oneFlush
            [Submission.submitOpaque plainCube, Submission.submitTransparent plainCube]
            [Submission.submitOpaque outlinedCube] := by
  refine ⟨⟨Renderer.flushOpaqueItem, Renderer.flushTransparentItem, flush_log⟩,
    ?_, ?_, ?_, ?_⟩
  · intro xs ys
    rw [twoFlushes_log, oneFlush_log]
    simp [opaques_map_submitOpaque]
  · intro xs ys
    rw [twoFlushes_log, oneFlush_log]
    simp [transparents_map_submitTransparent]
  · intro first second
    rw [twoFlushes_log, oneFlush_log]
    simp only [List.append_assoc]
    refine List.Perm.append_left _ ?_
    simp only [← List.append_assoc]
    exact List.Perm.append_right _ List.perm_append_comm
  · intro h
    have hd := congrArg mainDraws h
    rw [twoFlushes_log, oneFlush_log] at hd
    simp [Submission.opaques, Submission.transparents, mainDraws_append,
      mainDraws_flushOpaqueItem, mainDraws_flushTransparentItem] at hd
    exact plainCube_ne_outlinedCube hd.1

/-! ## The context left behind by `flush` -/

theorem GpuState.after_opaque_item (r : Renderable3D) (st : GpuState) :
    (st.run (Renderer.flushOpaqueItem r)).depthTest = true
      ∧ (st.run (Renderer.flushOpaqueItem r)).stencilMask = 0xFF
      ∧ (st.run (Renderer.flushOpaqueItem r)).stencilFunc
          = (if r.getShouldOutline = true then (GLenum.GL_NOTEQUAL, 1, 0xFF)
             else (GLenum.GL_ALWAYS, 1, 0xFF))
      ∧ (st.run (Renderer.flushOpaqueItem r)).blend = st.blend := by
  cases ho : r.getShouldOutline <;>
    simp [Renderer.flushOpaqueItem, ho, GpuState.apply, GpuState.run]

theorem GpuState.after_transparent_item (r : Renderable3D) (st : GpuState) :
    (st.run (Renderer.flushTransparentItem r)).depthTest = true
      ∧ (st.run (Renderer.flushTransparentItem r)).stencilMask = 0xFF
      ∧ (st.run (Renderer.flushTransparentItem r)).stencilFunc
          = (if r.getShouldOutline = true then (GLenum.GL_NOTEQUAL, 1, 0xFF)
             else (GLenum.GL_ALWAYS, 1, 0xFF))
      ∧ (st.run (Renderer.flushTransparentItem r)).blend = false := by
  cases ho : r.getShouldOutline <;>
    simp [Renderer.flushTransparentItem, ho, GpuState.apply, GpuState.run]

theorem GpuState.blend_after_opaque_queue (queue : List Renderable3D) (st : GpuState) :
    (st.run (queue.flatMap Renderer.flushOpaqueItem)).blend = st.blend := by
  induction queue generalizing st with
  | nil => simp [GpuState.run]
  | cons r rest ih =>
    rw [List.flatMap_cons, GpuState.run_append, ih]
    exact (GpuState.after_opaque_item r st).2.2.2

/-- C17. `flush` does not put the context back.  For every workload with at least one
renderable and every context at entry: at return the depth test is on and the stencil
write mask is 0xFF; the stencil function is (not equal, 1, 0xFF) if the renderable
processed last (the last transparent one, or the last opaque one when no transparent
one is queued) has its outline flag set and (always, 1, 0xFF) otherwise; blending is off
if the transparent queue was not empty and as it was at entry if it was empty. -/
theorem context_left_by_flush (self : Renderer) (initial : GpuState) (last : Renderable3D)
    (hlast : (self.m_OpaqueRenderQueue ++ self.m_TransparentRenderQueue).getLast?
      = some last) :
    (initial.run self.flush.2).depthTest = true
      ∧ (initial.run self.flush.2).stencilMask = 0xFF
      ∧ (initial.run self.flush.2).stencilFunc
          = (if last.getShouldOutline = true then (GLenum.GL_NOTEQUAL, 1, 0xFF)
             else (GLenum.GL_ALWAYS, 1, 0xFF))
      ∧ (self.m_TransparentRenderQueue ≠ [] → (initial.run self.flush.2).blend = false)
      ∧ (self.m_TransparentRenderQueue = [] →
          (initial.run self.flush.2).blend = initial.blend) := by
  obtain ⟨opq, tr⟩ := self
  simp only at hlast ⊢
  by_cases htr : tr = []
  · subst htr
    rw [List.append_nil] at hlast
    obtain ⟨front, hfront⟩ := List.getLast?_eq_some_iff.1 hlast
    subst hfront
    have hitem := GpuState.after_opaque_item last
      (initial.run (front.flatMap Renderer.flushOpaqueItem))
    have hlog : (Renderer.flush ⟨front ++ [last], []⟩).2
        = front.flatMap Renderer.flushOpaqueItem ++ Renderer.flushOpaqueItem last := by
      simp [flush_log]
    rw [hlog, GpuState.run_append]
    refine ⟨hitem.1, hitem.2.1, hitem.2.2.1, fun h => absurd rfl h, fun _ => ?_⟩
    rw [hitem.2.2.2, GpuState.blend_after_opaque_queue]
  · rw [List.getLast?_append_of_ne_nil _ htr] at hlast
    obtain ⟨front, hfront⟩ := List.getLast?_eq_some_iff.1 hlast
    subst hfront
    have hitem := GpuState.after_transparent_item last
      (initial.run (opq.flatMap Renderer.flushOpaqueItem
        ++ front.flatMap Renderer.flushTransparentItem))
    have hlog : (Renderer.flush ⟨opq, front ++ [last]⟩).2
        = (opq.flatMap Renderer.flushOpaqueItem
            ++ front.flatMap Renderer.flushTransparentItem)
          ++ Renderer.flushTransparentItem last := by
      simp [flush_log]
    rw [hlog, GpuState.run_append]
    exact ⟨hitem.1, hitem.2.1, hitem.2.2.1, fun _ => hitem.2.2.2, fun h => absurd h htr⟩

/-- C17 at a sample: `plainCube` then `outlinedCube` in the opaque queue, no transparent
renderable, from a context with everything off: the depth test is left on, the stencil
function is left at not-equal and blending stays off. -/
theorem context_left_by_flush_witness :
    ([plainCube, outlinedCube] ++ ([] : List Renderable3D)).getLast? = some outlinedCube
      ∧ GpuState.allOff.depthTest = false
      ∧ (GpuState.allOff.run (Renderer.flush ⟨[plainCube, outlinedCube], []⟩).2).depthTest
          = true
      ∧ (GpuState.allOff.run (Renderer.flush ⟨[plainCube, outlinedCube], []⟩).2).stencilMask
          = 0xFF
      ∧ (GpuState.allOff.run (Renderer.flush ⟨[plainCube, outlinedCube], []⟩).2).stencilFunc
          = (GLenum.GL_NOTEQUAL, 1, 0xFF)
      ∧ (GpuState.allOff.run (Renderer.flush ⟨[plainCube, outlinedCube], []⟩).2).blend
          = false := by
  have h := context_left_by_flush ⟨[plainCube, outlinedCube], []⟩ GpuState.allOff
    outlinedCube rfl
  have hflag : outlinedCube.getShouldOutline = true := rfl
  rw [if_pos hflag] at h
  exact ⟨rfl, rfl, h.1, h.2.1, h.2.2.1, h.2.2.2.2 rfl⟩

/-! ## The camera clamps -/

theorem F32.key_eq_none_iff (x : F32) : x.key = none ↔ x = F32.nan := by
  cases x with
  | fin s m => cases s <;> simp [F32.key]
  | inf s => cases s <;> simp [F32.key]
  | nan => simp [F32.key]

theorem F32.clamp_not_outside (x lo hi : F32) (h : F32.le lo hi = true) :
    F32.lt (F32.clamp x lo hi) lo = false ∧ F32.lt hi (F32.clamp x lo hi) = false := by
  unfold F32.clamp
  rcases hlo : lo.key with _ | klo
  · simp [F32.le, hlo] at h
  rcases hhi : hi.key with _ | khi
  · simp [F32.le, hlo, hhi] at h
  have hle : klo ≤ khi := by simpa [F32.le, hlo, hhi] using h
  by_cases h1 : F32.lt x lo = true
  · rw [if_pos h1]
    simp only [F32.lt, hlo, hhi, decide_eq_false_iff_not]
    omega
  · rw [if_neg h1]
    by_cases h2 : F32.lt hi x = true
    · rw [if_pos h2]
      simp only [F32.lt, hlo, hhi, decide_eq_false_iff_not]
      omega
    · rw [if_neg h2]
      exact ⟨by simpa using h1, by simpa using h2⟩

theorem F32.clamp_inside (x lo hi : F32) (h : F32.le lo hi = true) (hx : x ≠ F32.nan) :
    F32.le lo (F32.clamp x lo hi) = true ∧ F32.le (F32.clamp x lo hi) hi = true := by
  unfold F32.clamp
  rcases hlo : lo.key with _ | klo
  · simp [F32.le, hlo] at h
  rcases hhi : hi.key with _ | khi
  · simp [F32.le, hlo, hhi] at h
  rcases hkx : x.key with _ | kx
  · exact absurd ((F32.key_eq_none_iff x).1 hkx) hx
  have hle : klo ≤ khi := by simpa [F32.le, hlo, hhi] using h
  by_cases h1 : F32.lt x lo = true
  · rw [if_pos h1]
    simp only [F32.le, hlo, hhi, decide_eq_true_eq]
    omega
  · rw [if_neg h1]
    by_cases h2 : F32.lt hi x = true
    · rw [if_pos h2]
      simp only [F32.le, hlo, hhi, decide_eq_true_eq]
      omega
    · rw [if_neg h2]
      simp only [F32.lt, hlo, hhi, hkx, decide_eq_true_eq] at h1 h2
      simp only [F32.le, hlo, hhi, hkx, decide_eq_true_eq]
      omega

theorem F32.clamp_above (x lo hi : F32) (h : F32.le lo hi = true)
    (hx : F32.lt hi x = true) : F32.clamp x lo hi = hi := by
  unfold F32.clamp
  rcases hlo : lo.key with _ | klo
  · simp [F32.le, hlo] at h
  rcases hhi : hi.key with _ | khi
  · simp [F32.le, hlo, hhi] at h
  rcases hkx : x.key with _ | kx
  · simp [F32.lt, hhi, hkx] at hx
  have hle : klo ≤ khi := by simpa [F32.le, hlo, hhi] using h
  have hgt : khi < kx := by simpa [F32.lt, hhi, hkx] using hx
  have h1 : ¬ F32.lt x lo = true := by
    simp only [F32.lt, hlo, hkx, decide_eq_true_eq]
    omega
  rw [if_neg h1, if_pos hx]

theorem F32.pitch_bounds_ordered :
    F32.le (F32.neg (F32.lit 89 1)) (F32.lit 89 1) = true := by
  set_option maxRecDepth 100000 in decide

theorem F32.fov_bounds_ordered : F32.le (F32.lit 1 1) FOV = true := by
  set_option maxRecDepth 100000 in decide

theorem F32.ofUnits_fin_or_inf (s : Bool) (p d : Nat) :
    (∃ m, F32.ofUnits s p d = F32.fin s m) ∨ F32.ofUnits s p d = F32.inf s := by
  unfold F32.ofUnits
  by_cases h : 2 ^ 128 * 2 ^ 149 ≤ F32.roundUnits p d
  · right
    simp only [if_pos h]
  · left
    exact ⟨F32.roundUnits p d, by simp only [if_neg h]⟩

theorem F32.add_fin_fin_ne_nan (a b : Bool) (m n : Nat) :
    F32.add (F32.fin a m) (F32.fin b n) ≠ F32.nan := by
  have hadd : F32.add (F32.fin a m) (F32.fin b n)
      = if a = b then F32.ofUnits a (m + n) 1
        else if m = n then F32.fin false 0
        else if n < m then F32.ofUnits a (m - n) 1
        else F32.ofUnits b (n - m) 1 := rfl
  rw [hadd]
  split_ifs
  · rcases F32.ofUnits_fin_or_inf a (m + n) 1 with ⟨q, hq⟩ | hq <;> rw [hq] <;> simp
  · simp
  · rcases F32.ofUnits_fin_or_inf a (m - n) 1 with ⟨q, hq⟩ | hq <;> rw [hq] <;> simp
  · rcases F32.ofUnits_fin_or_inf b (n - m) 1 with ⟨q, hq⟩ | hq <;> rw [hq] <;> simp

theorem F32.add_mul_ne_nan_of_finite (x y z : F32) (hx : x.isFinite = true)
    (hy : y.isFinite = true) (hz : z.isFinite = true) :
    F32.add x (F32.mul y z) ≠ F32.nan := by
  cases x with
  | inf s => simp [F32.isFinite] at hx
  | nan => simp [F32.isFinite] at hx
  | fin a m =>
    cases y with
    | inf s => simp [F32.isFinite] at hy
    | nan => simp [F32.isFinite] at hy
    | fin b n =>
      cases z with
      | inf s => simp [F32.isFinite] at hz
      | nan => simp [F32.isFinite] at hz
      | fin c k =>
        have hmul : F32.mul (F32.fin b n) (F32.fin c k)
            = F32.ofUnits (b != c) (n * k) (2 ^ 149) := rfl
        rw [hmul]
        rcases F32.ofUnits_fin_or_inf (b != c) (n * k) (2 ^ 149) with ⟨q, hq⟩ | hq
        · rw [hq]
          exact F32.add_fin_fin_ne_nan a (b != c) m q
        · rw [hq]
          simp [F32.add]

/-- C13. For every camera state and every offsets, after
`processMouseMovement(xOffset, yOffset, true)` the pitch is
clamp(oldPitch + yOffset * sensitivity, -89, 89).  It is never below -89 and never above
89; it lies within [-89, 89] for all finite pitch, offset and sensitivity, and more
generally whenever oldPitch + yOffset * sensitivity is a number; a value above 89 leaves
the pitch at exactly 89; and the yaw is oldYaw + xOffset * sensitivity.  The arithmetic
is binary32. -/
theorem mouse_movement_clamps_pitch (orient : F32 → F32 → Vec3 → Vec3 × Vec3 × Vec3)
    (self : Camera) (xOffset yOffset : F32) :
    (self.processMouseMovement orient xOffset yOffset true).m_Pitch
        = F32.clamp (F32.add self.m_Pitch (F32.mul yOffset self.m_MouseSensitivity))
            (F32.neg (F32.lit 89 1)) (F32.lit 89 1)
      ∧ F32.lt (self.processMouseMovement orient xOffset yOffset true).m_Pitch
          (F32.neg (F32.lit 89 1)) = false
      ∧ F32.lt (F32.lit 89 1)
          (self.processMouseMovement orient xOffset yOffset true).m_Pitch = false
      ∧ (self.m_Pitch.isFinite = true → yOffset.isFinite = true →
          self.m_MouseSensitivity.isFinite = true →
          F32.le (F32.neg (F32.lit 89 1))
              (self.processMouseMovement orient xOffset yOffset true).m_Pitch = true
            ∧ F32.le (self.processMouseMovement orient xOffset yOffset true).m_Pitch
              (F32.lit 89 1) = true)
      ∧ (F32.add self.m_Pitch (F32.mul yOffset self.m_MouseSensitivity) ≠ F32.nan →
          F32.le (F32.neg (F32.lit 89 1))
              (self.processMouseMovement orient xOffset yOffset true).m_Pitch = true
            ∧ F32.le (self.processMouseMovement orient xOffset yOffset true).m_Pitch
              (F32.lit 89 1) = true)
      ∧ (F32.lt (F32.lit 89 1)
            (F32.add self.m_Pitch (F32.mul yOffset self.m_MouseSensitivity)) = true →
          (self.processMouseMovement orient xOffset yOffset true).m_Pitch = F32.lit 89 1)
      ∧ (self.processMouseMovement orient xOffset yOffset true).m_Yaw
        = F32.add self.m_Yaw (F32.mul xOffset self.m_MouseSensitivity) := by
  have hp : (self.processMouseMovement orient xOffset yOffset true).m_Pitch
      = F32.clamp (F32.add self.m_Pitch (F32.mul yOffset self.m_MouseSensitivity))
          (F32.neg (F32.lit 89 1)) (F32.lit 89 1) := by
    simp [Camera.processMouseMovement, Camera.updateCameraVectors]
  have hy : (self.processMouseMovement orient xOffset yOffset true).m_Yaw
      = F32.add self.m_Yaw (F32.mul xOffset self.m_MouseSensitivity) := by
    simp [Camera.processMouseMovement, Camera.updateCameraVectors]
  rw [hp]
  exact ⟨rfl, (F32.clamp_not_outside _ _ _ F32.pitch_bounds_ordered).1,
    (F32.clamp_not_outside _ _ _ F32.pitch_bounds_ordered).2,
    fun h1 h2 h3 => F32.clamp_inside _ _ _ F32.pitch_bounds_ordered
      (F32.add_mul_ne_nan_of_finite _ _ _ h1 h2 h3),
    fun hx => F32.clamp_inside _ _ _ F32.pitch_bounds_ordered hx,
    fun hx => F32.clamp_above _ _ _ F32.pitch_bounds_ordered hx, hy⟩

/-- C13 at a sample: from the default camera (pitch 0, sensitivity 0.1) a y-offset of
10000 gives an unclamped pitch of 1000 and leaves the pitch at exactly 89, within
[-89, 89]; the same offset once more leaves it at 89 again. -/
theorem mouse_movement_clamps_pitch_witness :
    (Camera.atOrigin.m_Pitch.isFinite = true
      ∧ (F32.lit 10000 1).isFinite = true
      ∧ Camera.atOrigin.m_MouseSensitivity.isFinite = true
      ∧ F32.le (F32.neg (F32.lit 89 1))
          (Camera.atOrigin.processMouseMovement Camera.fixedAxes (F32.lit 0 1)
            (F32.lit 10000 1) true).m_Pitch = true
      ∧ F32.le (Camera.atOrigin.processMouseMovement Camera.fixedAxes (F32.lit 0 1)
            (F32.lit 10000 1) true).m_Pitch (F32.lit 89 1) = true)
    ∧ F32.lt (F32.lit 89 1)
        (F32.add Camera.atOrigin.m_Pitch
          (F32.mul (F32.lit 10000 1) Camera.atOrigin.m_MouseSensitivity)) = true
    ∧ (Camera.atOrigin.processMouseMovement Camera.fixedAxes (F32.lit 0 1)
        (F32.lit 10000 1) true).m_Pitch = F32.lit 89 1
    ∧ ((Camera.atOrigin.processMouseMovement Camera.fixedAxes (F32.lit 0 1)
        (F32.lit 10000 1) true).processMouseMovement Camera.fixedAxes (F32.lit 0 1)
        (F32.lit 10000 1) true).m_Pitch = F32.lit 89 1 := by
  have f1 : Camera.atOrigin.m_Pitch.isFinite = true := by
    set_option maxRecDepth 100000 in decide
  have f2 : (F32.lit 10000 1).isFinite = true := by
    set_option maxRecDepth 100000 in decide
  have f3 : Camera.atOrigin.m_MouseSensitivity.isFinite = true := by
    set_option maxRecDepth 100000 in decide
  have hin := (mouse_movement_clamps_pitch Camera.fixedAxes Camera.atOrigin (F32.lit 0 1)
    (F32.lit 10000 1)).2.2.2.1 f1 f2 f3
  have h1 : F32.lt (F32.lit 89 1)
      (F32.add Camera.atOrigin.m_Pitch
        (F32.mul (F32.lit 10000 1) Camera.atOrigin.m_MouseSensitivity)) = true := by
    set_option maxRecDepth 100000 in decide
  have h2 := (mouse_movement_clamps_pitch Camera.fixedAxes Camera.atOrigin (F32.lit 0 1)
    (F32.lit 10000 1)).2.2.2.2.2.1 h1
  refine ⟨⟨f1, f2, f3, hin.1, hin.2⟩, h1, h2, ?_⟩
  refine (mouse_movement_clamps_pitch Camera.fixedAxes _ (F32.lit 0 1)
    (F32.lit 10000 1)).2.2.2.2.2.1 ?_
  rw [h2]
  set_option maxRecDepth 100000 in decide

/-- C14. For every camera state and every offset, after `processMouseScroll(yOffset)` the
field of view is clamp(oldFOV - yOffset, 1, FOV) with FOV = 100 the largest field of
view: it is never below 1 and never above FOV (and within [1, FOV] whenever
oldFOV - yOffset is a number and not a NaN); position, yaw, pitch, the orientation
vectors and the other members are unchanged.  The arithmetic is binary32. -/
theorem mouse_scroll_clamps_fov (self : Camera) (yOffset : F32) :
    (self.processMouseScroll yOffset).m_FOV
        = F32.clamp (F32.sub self.m_FOV yOffset) (F32.lit 1 1) FOV
      ∧ F32.lt (self.processMouseScroll yOffset).m_FOV (F32.lit 1 1) = false
      ∧ F32.lt FOV (self.processMouseScroll yOffset).m_FOV = false
      ∧ (F32.sub self.m_FOV yOffset ≠ F32.nan →
          F32.le (F32.lit 1 1) (self.processMouseScroll yOffset).m_FOV = true
            ∧ F32.le (self.processMouseScroll yOffset).m_FOV FOV = true)
      ∧ (self.processMouseScroll yOffset).m_Position = self.m_Position
      ∧ (self.processMouseScroll yOffset).m_Yaw = self.m_Yaw
      ∧ (self.processMouseScroll yOffset).m_Pitch = self.m_Pitch
      ∧ (self.processMouseScroll yOffset).m_Front = self.m_Front
      ∧ (self.processMouseScroll yOffset).m_Up = self.m_Up
      ∧ (self.processMouseScroll yOffset).m_Right = self.m_Right
      ∧ (self.processMouseScroll yOffset).m_WorldUp = self.m_WorldUp
      ∧ (self.processMouseScroll yOffset).m_MovementSpeed = self.m_MovementSpeed
      ∧ (self.processMouseScroll yOffset).m_MouseSensitivity = self.m_MouseSensitivity := by
  have hf : (self.processMouseScroll yOffset).m_FOV
      = F32.clamp (F32.sub self.m_FOV yOffset) (F32.lit 1 1) FOV := rfl
  rw [hf]
  exact ⟨rfl, (F32.clamp_not_outside _ _ _ F32.fov_bounds_ordered).1,
    (F32.clamp_not_outside _ _ _ F32.fov_bounds_ordered).2,
    fun hx => F32.clamp_inside _ _ _ F32.fov_bounds_ordered hx,
    rfl, rfl, rfl, rfl, rfl, rfl, rfl, rfl, rfl⟩

/-- C14 at a sample: from the default camera (field of view 100) a scroll of 500 leaves
the field of view at 1. -/
theorem mouse_scroll_clamps_fov_witness :
    F32.sub Camera.atOrigin.m_FOV (F32.lit 500 1) ≠ F32.nan
      ∧ (Camera.atOrigin.processMouseScroll (F32.lit 500 1)).m_FOV = F32.lit 1 1
      ∧ F32.le (F32.lit 1 1) (Camera.atOrigin.processMouseScroll (F32.lit 500 1)).m_FOV = true
      ∧ F32.le (Camera.atOrigin.processMouseScroll (F32.lit 500 1)).m_FOV FOV = true := by
  have h1 : F32.sub Camera.atOrigin.m_FOV (F32.lit 500 1) ≠ F32.nan := by
    set_option maxRecDepth 100000 in decide
  have h2 := (mouse_scroll_clamps_fov Camera.atOrigin (F32.lit 500 1)).2.2.2.1 h1
  exact ⟨h1, by set_option maxRecDepth 100000 in decide, h2.1, h2.2⟩

end arcane
